import Mathlib

/-!
Verification development for the BizHealth IDM compilation engine.

This file gives a shallow embedding, in Lean 4, of the Python code in
`scripts/idm_models.py` and `scripts/phase4-idm-compiler.py` (the IDM data
model, the category score extractor, the IDM compiler and the pydantic-based
IDM validator), and proves or refutes the stated properties of that code.

Modelling conventions:
- Python floats are modelled as rationals (`ℚ`).  All numeric constants in the
  modelled code are exactly representable; `round(x, 1)` is modelled with the
  mathematical `round` (half-up), which differs from Python's float `round`
  only at exact half-way ties that no modelled computation reaches.
- JSON leaf values are modelled by `JValue`; Python `int`/`float`/`bool`
  (a `bool` is an `int` in Python) all appear as `JValue.num`, and list/dict
  payloads are never inspected by the modelled code so they carry no data.
- Python dicts appearing as "flat maps" are modelled as association lists with
  first-match lookup (JSON object keys are unique).
- `uuid.uuid4()` and `datetime.utcnow()` results are modelled as explicit
  `FreshValues` inputs to `compile_idm`, making the nondeterminism visible.
- Rich Phase 1.5 `categoryCode` values other than the 12 canonical dimension
  codes and the legacy alias `ITD` make the Python compiler raise `ValueError`
  (`DimensionCode(...)`), so no IDM is produced for them; the embedding
  restricts `categoryCode` to the accepted values (`InCode`).
-/

namespace BizHealth

/-! ## Enums (idm_models.py) -/

/-- Chapter codes: the 4 main assessment chapters (GE, PH, PL, RS). -/
inductive ChapterCode where
  | GE | PH | PL | RS
deriving DecidableEq, Repr

/-- Dimension codes: the 12 assessment dimensions. -/
inductive DimensionCode where
  | STR | SAL | MKT | CXP | OPS | FIN | HRS | LDG | TIN | IDS | RMS | CMP
deriving DecidableEq, Repr

/-- Finding types. -/
inductive FindingType where
  | strength | gap | risk | opportunity
deriving DecidableEq, Repr

/-- Recommendation time horizons. -/
inductive RecommendationHorizon where
  | NINETY_DAYS | TWELVE_MONTHS | TWENTY_FOUR_MONTHS_PLUS
deriving DecidableEq, Repr

/-- Score bands for performance tier classification. -/
inductive ScoreBand where
  | CRITICAL | ATTENTION | PROFICIENCY | EXCELLENCE
deriving DecidableEq, Repr

/-- Trajectory indicators. -/
inductive Trajectory where
  | IMPROVING | FLAT | DECLINING
deriving DecidableEq, Repr

/-- The string value of a dimension code (Python `DimensionCode.value`). -/
def DimensionCode.value : DimensionCode → String
  | .STR => "STR" | .SAL => "SAL" | .MKT => "MKT" | .CXP => "CXP"
  | .OPS => "OPS" | .FIN => "FIN" | .HRS => "HRS" | .LDG => "LDG"
  | .TIN => "TIN" | .IDS => "IDS" | .RMS => "RMS" | .CMP => "CMP"

/-- All chapter codes in Python enum definition order
(`for chapter_code in ChapterCode`). -/
def ChapterCode.all : List ChapterCode := [.GE, .PH, .PL, .RS]

/-- All dimension codes in Python enum definition order. -/
def DimensionCode.all : List DimensionCode :=
  [.STR, .SAL, .MKT, .CXP, .OPS, .FIN, .HRS, .LDG, .TIN, .IDS, .RMS, .CMP]

/-! ## JSON leaf values -/

/-- A JSON leaf value as inspected by the modelled code.  Python ints, floats
and bools all satisfy `isinstance(v, (int, float))` and are modelled as `num`
(a bool is the number 0 or 1); the contents of nested lists/dicts are never
read by the modelled code, so `arr`/`obj` carry no payload. -/
inductive JValue where
  | num (q : ℚ)
  | str (s : String)
  | null
  | arr
  | obj
deriving DecidableEq, Repr

/-- A webhook payload: category key -> flat map of question key to value.
Models the Python dict-of-dicts with unique keys. -/
abbrev Webhook := List (String × List (String × JValue))

/-- Python `self.webhook_data.get(category_key, {})`. -/
def webhookGet (w : Webhook) (key : String) : List (String × JValue) :=
  match w.find? (fun p => decide (p.1 = key)) with
  | some p => p.2
  | none => []

/-! ## IDM model structures (idm_models.py) -/

/-- IDM metadata. -/
structure Meta where
  assessment_run_id : String
  company_profile_id : String
  created_at : String
  methodology_version : String := "1.0.0"
  scoring_version : String := "1.0.0"
  idm_schema_version : String := "1.0.0"
deriving DecidableEq, Repr

/-- Benchmark data (pydantic: `peer_percentile` constrained to [0,100]). -/
structure Benchmark where
  peer_percentile : ℚ
  band_description : String
deriving DecidableEq, Repr

/-- Chapter: a major assessment grouping. -/
structure Chapter where
  chapter_code : ChapterCode
  name : String
  score_overall : ℚ
  score_band : ScoreBand
  benchmark : Option Benchmark := none
  previous_score_overall : Option ℚ := none
deriving DecidableEq, Repr

/-- Sub-indicator: a specific aspect within a dimension. -/
structure SubIndicator where
  id : String
  dimension_code : DimensionCode
  name : String
  score : ℚ
  score_band : Option ScoreBand := none
  contributing_question_ids : List String
deriving DecidableEq, Repr

/-- Dimension: one of the 12 assessment areas. -/
structure Dimension where
  dimension_code : DimensionCode
  chapter_code : ChapterCode
  name : String
  description : String
  score_overall : ℚ
  score_band : ScoreBand
  sub_indicators : List SubIndicator
  benchmark : Option Benchmark := none
  previous_score_overall : Option ℚ := none
deriving DecidableEq, Repr

/-- Question: a questionnaire response mapped to a dimension.  The Python
model allows any raw response; the compiler only stores non-dict, non-list,
non-None values, modelled by `JValue`. -/
structure Question where
  question_id : String
  dimension_code : DimensionCode
  sub_indicator_id : String
  raw_response : JValue
  normalized_score : Option ℚ := none
deriving DecidableEq, Repr

/-- Evidence references.  The compiler passes free-form dicts here; pydantic
coerces them to this model, silently dropping unknown keys (such as
`evidence`, `impact_level`, `root_cause`), so the rich-mode compiler always
ends up with all three fields `None`. -/
structure EvidenceRefs where
  question_ids : Option (List String) := none
  metrics : Option (List String) := none
  benchmarks : Option (List String) := none
deriving DecidableEq, Repr

/-- Finding: a discrete insight.  `severity` and `confidence_level` are
`Union[str, float, int]` in Python; every value the compiler produces is a
string, so they are modelled as `String`. -/
structure Finding where
  id : String
  dimension_code : DimensionCode
  sub_indicator_id : Option String := none
  type : FindingType
  severity : String
  confidence_level : String
  short_label : String
  narrative : String
  evidence_refs : Option EvidenceRefs := none
deriving DecidableEq, Repr

/-- Recommendation (pydantic: `priority_rank` constrained positive,
`impact_score`/`effort_score` to [0,100]). -/
structure Recommendation where
  id : String
  dimension_code : DimensionCode
  linked_finding_ids : List String
  theme : String
  priority_rank : ℤ
  impact_score : ℚ
  effort_score : ℚ
  horizon : RecommendationHorizon
  required_capabilities : Option (List String) := none
  action_steps : List String
  expected_outcomes : String
deriving DecidableEq, Repr

/-- Quick win: a reference to a recommendation. -/
structure QuickWin where
  recommendation_id : String
deriving DecidableEq, Repr

/-- Risk.  As for findings, the compiler only ever produces string severities
and likelihoods. -/
structure Risk where
  id : String
  dimension_code : DimensionCode
  severity : String
  likelihood : String
  narrative : String
  linked_recommendation_ids : Option (List String) := none
  category : Option String := none
deriving DecidableEq, Repr

/-- Roadmap phase. -/
structure RoadmapPhase where
  id : String
  name : String
  time_horizon : String
  linked_recommendation_ids : List String
  narrative : String
deriving DecidableEq, Repr

/-- Complete roadmap. -/
structure Roadmap where
  phases : List RoadmapPhase
deriving DecidableEq, Repr

/-- Overall scores summary. -/
structure ScoresSummary where
  overall_health_score : ℚ
  descriptor : String
  trajectory : Trajectory
  key_imperatives : List String
deriving DecidableEq, Repr

/-- The complete Insights Data Model document. -/
structure IDM where
  meta : Meta
  chapters : List Chapter
  dimensions : List Dimension
  questions : List Question
  findings : List Finding
  recommendations : List Recommendation
  quick_wins : List QuickWin
  risks : List Risk
  roadmap : Roadmap
  scores_summary : ScoresSummary
deriving DecidableEq, Repr

/-! ## Constants (idm_models.py) -/

/-- Chapter display names. -/
def CHAPTER_NAMES : ChapterCode → String
  | .GE => "Growth Engine"
  | .PH => "Performance & Health"
  | .PL => "People & Leadership"
  | .RS => "Resilience & Safeguards"

/-- Dimension metadata container. -/
structure DimensionMetadata where
  name : String
  description : String
  chapter : ChapterCode
deriving DecidableEq, Repr

/-- The fixed dimension metadata table. -/
def DIMENSION_METADATA : DimensionCode → DimensionMetadata
  | .STR => ⟨"Strategy",
      "Strategic planning, market positioning, and growth strategy", .GE⟩
  | .SAL => ⟨"Sales",
      "Sales effectiveness, pipeline management, and revenue generation", .GE⟩
  | .MKT => ⟨"Marketing",
      "Brand awareness, customer acquisition, and marketing ROI", .GE⟩
  | .CXP => ⟨"Customer Experience",
      "Customer satisfaction, retention, and experience quality", .GE⟩
  | .OPS => ⟨"Operations",
      "Operational efficiency, process optimization, and workflow management", .PH⟩
  | .FIN => ⟨"Financials",
      "Financial health, profitability, and fiscal management", .PH⟩
  | .HRS => ⟨"Human Resources",
      "Talent management, culture, and employee engagement", .PL⟩
  | .LDG => ⟨"Leadership & Governance",
      "Leadership effectiveness, decision-making, and organizational governance", .PL⟩
  | .TIN => ⟨"Technology & Innovation",
      "Technology adoption, innovation culture, and digital transformation", .RS⟩
  | .IDS => ⟨"IT, Data & Systems",
      "IT infrastructure, data management, and cybersecurity", .RS⟩
  | .RMS => ⟨"Risk Management & Sustainability",
      "Risk identification, mitigation, and business continuity", .RS⟩
  | .CMP => ⟨"Compliance",
      "Regulatory compliance, policy adherence, and legal requirements", .RS⟩

/-- Sub-indicator definition (id and name). -/
structure SubIndicatorDef where
  id : String
  name : String
deriving DecidableEq, Repr

/-- The fixed sub-indicator catalog, 5 entries per dimension. -/
def SUB_INDICATOR_DEFINITIONS : DimensionCode → List SubIndicatorDef
  | .STR => [⟨"STR_001", "Competitive Differentiation"⟩,
             ⟨"STR_002", "Market Position"⟩,
             ⟨"STR_003", "Growth Planning"⟩,
             ⟨"STR_004", "Strategic Review Process"⟩,
             ⟨"STR_005", "Exit/Growth Strategy"⟩]
  | .SAL => [⟨"SAL_001", "Sales Target Alignment"⟩,
             ⟨"SAL_002", "Pipeline Management"⟩,
             ⟨"SAL_003", "Sales Cycle Efficiency"⟩,
             ⟨"SAL_004", "Customer Retention"⟩,
             ⟨"SAL_005", "Upselling Effectiveness"⟩]
  | .MKT => [⟨"MKT_001", "Brand Awareness"⟩,
             ⟨"MKT_002", "Customer Targeting"⟩,
             ⟨"MKT_003", "Marketing Economics (CAC/LTV)"⟩,
             ⟨"MKT_004", "Marketing ROI"⟩,
             ⟨"MKT_005", "Channel Strategy"⟩]
  | .CXP => [⟨"CXP_001", "Customer Feedback Systems"⟩,
             ⟨"CXP_002", "Customer Satisfaction"⟩,
             ⟨"CXP_003", "Net Promoter Score"⟩,
             ⟨"CXP_004", "Issue Resolution"⟩,
             ⟨"CXP_005", "Response Time"⟩]
  | .OPS => [⟨"OPS_001", "Operational Efficiency"⟩,
             ⟨"OPS_002", "Process Documentation"⟩,
             ⟨"OPS_003", "Operational Reliability"⟩,
             ⟨"OPS_004", "Lean Practices"⟩,
             ⟨"OPS_005", "Resource Utilization"⟩]
  | .FIN => [⟨"FIN_001", "Financial Controls"⟩,
             ⟨"FIN_002", "Cash Management"⟩,
             ⟨"FIN_003", "Profitability"⟩,
             ⟨"FIN_004", "Financial Planning"⟩,
             ⟨"FIN_005", "Growth Readiness"⟩]
  | .HRS => [⟨"HRS_001", "HR Infrastructure"⟩,
             ⟨"HRS_002", "Company Culture"⟩,
             ⟨"HRS_003", "Talent Acquisition"⟩,
             ⟨"HRS_004", "Employee Development"⟩,
             ⟨"HRS_005", "Performance Management"⟩]
  | .LDG => [⟨"LDG_001", "Leadership Effectiveness"⟩,
             ⟨"LDG_002", "Decision-Making Structure"⟩,
             ⟨"LDG_003", "Board Oversight"⟩,
             ⟨"LDG_004", "Leadership Culture"⟩,
             ⟨"LDG_005", "Development & Mentorship"⟩]
  | .TIN => [⟨"TIN_001", "Technology Investment"⟩,
             ⟨"TIN_002", "Innovation Culture"⟩,
             ⟨"TIN_003", "Technology Adoption"⟩,
             ⟨"TIN_004", "Automation Utilization"⟩,
             ⟨"TIN_005", "Innovation Impact"⟩]
  | .IDS => [⟨"IDS_001", "IT Infrastructure"⟩,
             ⟨"IDS_002", "Network Effectiveness"⟩,
             ⟨"IDS_003", "Cybersecurity"⟩,
             ⟨"IDS_004", "Data Management"⟩,
             ⟨"IDS_005", "IT Scalability"⟩]
  | .RMS => [⟨"RMS_001", "Risk Outlook"⟩,
             ⟨"RMS_002", "Risk Identification"⟩,
             ⟨"RMS_003", "Risk Mitigation"⟩,
             ⟨"RMS_004", "Business Continuity"⟩,
             ⟨"RMS_005", "Strategic Adaptability"⟩]
  | .CMP => [⟨"CMP_001", "Compliance Awareness"⟩,
             ⟨"CMP_002", "Policy Adherence"⟩,
             ⟨"CMP_003", "Compliance Monitoring"⟩,
             ⟨"CMP_004", "Documentation"⟩,
             ⟨"CMP_005", "Incident Reporting"⟩]

/-! ## Helper functions (idm_models.py) -/

/-- `get_score_band`: numeric score to qualitative band. -/
def get_score_band (score : ℚ) : ScoreBand :=
  if 80 ≤ score then .EXCELLENCE
  else if 60 ≤ score then .PROFICIENCY
  else if 40 ≤ score then .ATTENTION
  else .CRITICAL

/-- `get_health_descriptor`: numeric score to health descriptor. -/
def get_health_descriptor (score : ℚ) : String :=
  if 85 ≤ score then "Excellent Health"
  else if 75 ≤ score then "Good Health"
  else if 65 ≤ score then "Fair Health"
  else if 50 ≤ score then "Needs Improvement"
  else "Critical Condition"

/-! ## General helpers for the embedding -/

/-- Python `str.lower()` (ASCII; all modelled strings are ASCII). -/
def pyLower (s : String) : String := String.mk (s.data.map Char.toLower)

/-- Python `needle in hay` on strings (substring containment). -/
def strContainsSub (hay needle : String) : Bool :=
  (List.range (hay.data.length + 1)).any
    (fun i => needle.data.isPrefixOf (hay.data.drop i))

/-- Python `str(n).zfill(3)` / `f"{n:03d}"` for a natural number. -/
def zfill3 (n : ℕ) : String :=
  if n < 10 then "00" ++ toString n
  else if n < 100 then "0" ++ toString n
  else toString n

/-- Python `round(x, 1)`, modelled with mathematical half-up rounding.
Python rounds floats half-to-even; the two differ only at exact `.x5` ties,
which no claim in this development depends on. -/
def round1 (q : ℚ) : ℚ := ((round (q * 10) : ℤ) : ℚ) / 10

/-- Rendering of a numeric score inside an f-string.  Python prints the float
decimally ("60.0"); only the textual form differs, and it is injective on the
values produced, which is all the modelled behaviour depends on. -/
def fmtScore (q : ℚ) : String := toString q

/-- Stable insertion of `a` into a sorted list: `a` is placed before the
first element not strictly below it, matching Python `sorted` stability when
elements are inserted from the front. -/
def pyInsert (le : α → α → Bool) (a : α) : List α → List α
  | [] => [a]
  | b :: bs => if le b a && !(le a b) then b :: pyInsert le a bs else a :: b :: bs

/-- Python `sorted(xs, key=...)`: a stable sort with respect to the boolean
preorder `le` (use `le a b = key a ≤ key b` for ascending and
`le a b = key b ≤ key a` for `reverse=True`). -/
def pySorted (le : α → α → Bool) : List α → List α
  | [] => []
  | a :: as => pyInsert le a (pySorted le as)

theorem mem_pyInsert {le : α → α → Bool} {a x : α} {l : List α} :
    x ∈ pyInsert le a l ↔ x = a ∨ x ∈ l := by
  induction l with
  | nil => simp [pyInsert]
  | cons b bs ih =>
    by_cases h : (le b a && !(le a b)) = true
    · simp only [pyInsert, if_pos h, List.mem_cons, ih]
      tauto
    · simp only [pyInsert, if_neg h, List.mem_cons]

theorem mem_pySorted {le : α → α → Bool} {x : α} {l : List α} :
    x ∈ pySorted le l ↔ x ∈ l := by
  induction l with
  | nil => simp [pySorted]
  | cons a as ih => simp [pySorted, mem_pyInsert, ih]

/-! ## Phase 1.5 input model (phase4-idm-compiler.py inputs)

Fields that the modelled code reads with `dict.get(key)` are `Option`s
(`none` = key absent); fields read with `dict[key]` (a `KeyError` aborts the
Python run if absent) are plain fields; list fields read with
`dict.get(key, [])` are plain lists.  Fields of the Phase 1.5 payload that
only feed the post-hoc enrichment dict (`crossCategoryInsights`,
`healthScore`, `healthStatus`, top strengths/weaknesses/risks), which is not
part of the IDM document, are omitted. -/

/-- A `categoryCode` value accepted by the compiler: one of the 12 canonical
codes, or the legacy alias `ITD`.  Any other string raises `ValueError` in
Python, producing no IDM. -/
inductive InCode where
  | code (c : DimensionCode)
  | ITD
deriving DecidableEq, Repr

/-- `_normalize_dim_code`: the legacy `ITD` code is folded into `IDS`. -/
def _normalize_dim_code : InCode → DimensionCode
  | .code c => c
  | .ITD => .IDS

/-- One entry of `benchmarkComparisons`. -/
structure P15Benchmark where
  position : Option String := none
deriving DecidableEq, Repr

/-- One entry of a category's `strengths` list. -/
structure P15Strength where
  title : Option String := none
  description : Option String := none
  impactLevel : Option String := none
deriving DecidableEq, Repr

/-- One entry of a category's `weaknesses` list.  `severity` is modelled as an
optional string (every non-string severity behaves as the absent case did not:
it is compared unequal to "critical"/"high" and lowered to "medium"; the
modelled inputs keep it a string as the upstream schema specifies). -/
structure P15Weakness where
  title : Option String := none
  description : Option String := none
  severity : Option String := none
  rootCause : Option String := none
deriving DecidableEq, Repr

/-- One entry of a category's `quickWins` list. -/
structure P15QuickWin where
  title : Option String := none
  description : Option String := none
  effort : Option String := none
  impact : Option String := none
  timeline : Option String := none
  estimatedROI : Option String := none
deriving DecidableEq, Repr

/-- One entry of a category's `categoryRisks` list. -/
structure P15Risk where
  description : Option String := none
  likelihood : Option String := none
  impact : Option String := none
  mitigation : Option String := none
deriving DecidableEq, Repr

/-- The Phase 1.5 `overallSummary` object (the fields the IDM construction
reads). -/
structure P15Summary where
  trajectory : Option String := none
  topOpportunities : List String := []
deriving DecidableEq, Repr

/-- One entry of `categoryAnalyses`. -/
structure P15Category where
  categoryCode : InCode
  categoryName : String
  overallScore : ℚ
  strengths : List P15Strength := []
  weaknesses : List P15Weakness := []
  quickWins : List P15QuickWin := []
  categoryRisks : List P15Risk := []
  benchmarkComparisons : List P15Benchmark := []
deriving DecidableEq, Repr

/-- The Phase 1.5 payload.  A missing or unreadable file is `⟨none, none⟩`
(the empty dict).  The Python guard `if self.phase1_5 and 'categoryAnalyses'
in self.phase1_5` is equivalent to `categoryAnalyses ≠ none`, since a dict
containing the key is nonempty hence truthy. -/
structure Phase15 where
  categoryAnalyses : Option (List P15Category) := none
  overallSummary : Option P15Summary := none
deriving DecidableEq, Repr

/-! ## Category score extraction (phase4-idm-compiler.py) -/

/-- `CategoryScore` dataclass.  `dimension_code` is stored as a string in
Python; in the rich path it has already been normalized (`ITD -> IDS`) and in
the fallback path it is always canonical, so it is modelled as
`DimensionCode`. -/
structure CategoryScore where
  name : String
  dimension_code : DimensionCode
  score : ℚ
  benchmark_score : ℚ
  weight : ℚ
  trend : String := "stable"
  percentile : ℤ := 50
deriving DecidableEq, Repr

/-- `_get_benchmark_for_dimension`.  (The Python dict also carries an `ITD`
key, but the lookup always happens after `ITD -> IDS` normalization, and the
`.get` default 3.5 is unreachable for the closed code set.) -/
def _get_benchmark_for_dimension : DimensionCode → ℚ
  | .STR => 3.5 | .SAL => 3.6 | .MKT => 3.4 | .CXP => 3.7
  | .OPS => 3.5 | .FIN => 3.6 | .HRS => 3.3 | .LDG => 3.4
  | .TIN => 3.5 | .IDS => 3.5 | .RMS => 3.4 | .CMP => 3.6

/-- `position_map.get(bc.get('position', 'average'), 50)`. -/
def positionValue (p : Option String) : ℕ :=
  match p.getD "average" with
  | "poor" => 20
  | "average" => 50
  | "good" => 70
  | "excellent" => 90
  | _ => 50

/-- The global trend applied uniformly to every rich-path category:
`trend_map.get(phase1_5.get('overallSummary', {}).get('trajectory', 'Stable'),
'stable')`. -/
def trendFromTrajectory (os : Option P15Summary) : String :=
  let traj := match os with
    | some s => s.trajectory.getD "Stable"
    | none => "Stable"
  match traj with
  | "Declining" => "declining"
  | "Stable" => "stable"
  | "Improving" => "improving"
  | _ => "stable"

/-- The rich-path (Phase 1.5) extraction of one `CategoryScore`.
`int(sum(positions) / len(positions))` truncates toward zero; all positions
are at least 20, so it equals the floor. -/
def richCategoryScore (os : Option P15Summary) (cat : P15Category) : CategoryScore :=
  let percentile : ℤ :=
    if cat.benchmarkComparisons.isEmpty then 50
    else
      let positions := cat.benchmarkComparisons.map (fun bc => positionValue bc.position)
      if positions.isEmpty then 50
      else Rat.floor ((positions.map (fun n => (n : ℚ))).sum / (positions.length : ℚ))
  let dim_code := _normalize_dim_code cat.categoryCode
  { name := cat.categoryName
    dimension_code := dim_code
    score := cat.overallScore
    benchmark_score := _get_benchmark_for_dimension dim_code
    weight := 1 / 12
    trend := trendFromTrajectory os
    percentile := percentile }

/-- The fallback `category_mapping` dict, in insertion order:
category key, dimension code, display name, benchmark. -/
def category_mapping : List (String × DimensionCode × String × ℚ) :=
  [("strategy", .STR, "Strategy", 3.5),
   ("sales", .SAL, "Sales", 3.6),
   ("marketing", .MKT, "Marketing", 3.4),
   ("customer_experience", .CXP, "Customer Experience", 3.7),
   ("operations", .OPS, "Operations", 3.5),
   ("financials", .FIN, "Financials", 3.6),
   ("human_resources", .HRS, "Human Resources", 3.3),
   ("leadership", .LDG, "Leadership & Governance", 3.4),
   ("technology", .TIN, "Technology & Innovation", 3.5),
   ("it_infrastructure", .IDS, "IT, Data & Systems", 3.5),
   ("risk_management", .RMS, "Risk Management", 3.4),
   ("compliance", .CMP, "Compliance", 3.6)]

/-- `_calculate_category_score`: weighted mean of the numeric leaf values of
one category's webhook data.  (The Python body also computes
`relevant_mappings` from `QUESTION_MAPPINGS`, but never uses it; that dead
code is omitted, as is the unused `dimension_code` parameter's effect.) -/
def _calculate_category_score (category_data : List (String × JValue)) : ℚ :=
  if category_data.isEmpty then 60
  else
    let sw : List (ℚ × ℚ) := category_data.filterMap (fun kv =>
      match kv.2 with
      | .num v =>
          if 1 ≤ v ∧ v ≤ 5 then some (((v - 1) / 4) * 100, 1)
          else if 0 ≤ v ∧ v ≤ 100 then some (v, 1 / 2)
          else none
      | _ => none)
    if sw.isEmpty then 60
    else
      let total_weight := (sw.map (fun p => p.2)).sum
      let weighted_sum := (sw.map (fun p => p.1 * p.2)).sum
      if 0 < total_weight then round1 (weighted_sum / total_weight) else 60

/-- `_calculate_trend_from_data`: first key containing "growth" with a numeric
value above 15 yields "improving", below -5 yields "declining"; otherwise the
scan continues, defaulting to "stable". -/
def _calculate_trend_from_data : List (String × JValue) → String
  | [] => "stable"
  | (k, v) :: rest =>
      match v with
      | .num x =>
          if strContainsSub (pyLower k) "growth" then
            if 15 < x then "improving"
            else if x < -5 then "declining"
            else _calculate_trend_from_data rest
          else _calculate_trend_from_data rest
      | _ => _calculate_trend_from_data rest

/-- `_calculate_percentile`: percentile rank of a 0-100 score relative to a
1-5 scale benchmark. -/
def _calculate_percentile (score benchmark : ℚ) : ℤ :=
  let score_5 := score / 100 * 4 + 1
  if benchmark = 0 then 50
  else
    let ratio := score_5 / benchmark
    if 1.2 ≤ ratio then 90
    else if 1 ≤ ratio then 75
    else if 0.8 ≤ ratio then 50
    else if 0.6 ≤ ratio then 25
    else 10

/-- The fallback-path extraction of one `CategoryScore` from webhook data. -/
def fallbackCategoryScore (webhook : Webhook)
    (entry : String × DimensionCode × String × ℚ) : CategoryScore :=
  match entry with
  | (category_key, dim_code, name, benchmark) =>
    let category_data := webhookGet webhook category_key
    let score := _calculate_category_score category_data
    { name := name
      dimension_code := dim_code
      score := score
      benchmark_score := benchmark
      weight := 1 / 12
      trend := _calculate_trend_from_data category_data
      percentile := _calculate_percentile score benchmark }

/-- `_get_default_scores`: the fixed built-in default category scores. -/
def _get_default_scores : List CategoryScore :=
  [⟨"Strategy", .STR, 68, 3.5, 1 / 12, "stable", 60⟩,
   ⟨"Sales", .SAL, 72, 3.6, 1 / 12, "stable", 65⟩,
   ⟨"Marketing", .MKT, 42, 3.4, 1 / 12, "declining", 35⟩,
   ⟨"Customer Experience", .CXP, 85, 3.7, 1 / 12, "stable", 80⟩,
   ⟨"Operations", .OPS, 78, 3.5, 1 / 12, "stable", 70⟩,
   ⟨"Financials", .FIN, 70, 3.6, 1 / 12, "stable", 60⟩,
   ⟨"Human Resources", .HRS, 55, 3.3, 1 / 12, "declining", 45⟩,
   ⟨"Leadership & Governance", .LDG, 48, 3.4, 1 / 12, "declining", 40⟩,
   ⟨"Technology & Innovation", .TIN, 75, 3.5, 1 / 12, "improving", 70⟩,
   ⟨"IT, Data & Systems", .IDS, 90, 3.5, 1 / 12, "stable", 85⟩,
   ⟨"Risk Management", .RMS, 45, 3.4, 1 / 12, "declining", 38⟩,
   ⟨"Compliance", .CMP, 72, 3.6, 1 / 12, "stable", 65⟩]

/-- `_extract_category_scores`: Phase 1.5 is authoritative when its
`categoryAnalyses` key is present; otherwise one `CategoryScore` per
`category_mapping` entry is derived from the webhook payload.  The final
`categories if categories else self._get_default_scores()` guard is modelled
verbatim (the fallback list always has 12 entries, so the default branch is
unreachable: see the theorems below). -/
def _extract_category_scores (p15 : Phase15) (webhook : Webhook) : List CategoryScore :=
  match p15.categoryAnalyses with
  | some cats => cats.map (richCategoryScore p15.overallSummary)
  | none =>
      let categories := category_mapping.map (fallbackCategoryScore webhook)
      if categories.isEmpty then _get_default_scores else categories

/-! ## IDM compilation (phase4-idm-compiler.py) -/

/-- The `category_key_mapping` dict of `_build_questions`, in insertion
order. -/
def category_key_mapping : List (String × DimensionCode) :=
  [("strategy", .STR), ("sales", .SAL), ("marketing", .MKT),
   ("customer_experience", .CXP), ("operations", .OPS), ("financials", .FIN),
   ("human_resources", .HRS), ("leadership", .LDG), ("technology", .TIN),
   ("it_infrastructure", .IDS), ("risk_management", .RMS), ("compliance", .CMP)]

/-- `value is not None and not isinstance(value, (dict, list))`. -/
def questionIncluded : JValue → Bool
  | .null => false
  | .arr => false
  | .obj => false
  | _ => true

/-- Normalization of a raw response to a 0-100 score (numeric values only). -/
def normalizeResponse : JValue → Option ℚ
  | .num v =>
      if 1 ≤ v ∧ v ≤ 5 then some (((v - 1) / 4) * 100)
      else if 0 ≤ v ∧ v ≤ 100 then some v
      else none
  | _ => none

/-- The inner loop of `_build_questions` for one category: `question_num`
starts at 1 and increments only for included values. -/
def questionsForCategory (category_key : String) (dim_code : DimensionCode) :
    ℕ → List (String × JValue) → List Question
  | _, [] => []
  | n, (_, v) :: rest =>
      if questionIncluded v then
        { question_id := category_key ++ "_q" ++ toString n
          dimension_code := dim_code
          sub_indicator_id := dim_code.value ++ "_" ++ zfill3 n
          raw_response := v
          normalized_score := normalizeResponse v } ::
          questionsForCategory category_key dim_code (n + 1) rest
      else questionsForCategory category_key dim_code n rest

/-- `_build_questions`: one `Question` per non-None, non-collection webhook
value, per category in `category_key_mapping` order. -/
def _build_questions (webhook : Webhook) : List Question :=
  category_key_mapping.flatMap
    (fun p => questionsForCategory p.1 p.2 1 (webhookGet webhook p.1))

/-- `_build_sub_indicators`: the fixed catalog for the dimension, with scores
varied around the dimension score by `(i - 2) * 5` and clamped to [0,100]. -/
def _build_sub_indicators (dimension_code : DimensionCode)
    (dimension_score : ℚ) : List SubIndicator :=
  (SUB_INDICATOR_DEFINITIONS dimension_code).enum.map (fun p =>
    let variation : ℚ := ((p.1 : ℚ) - 2) * 5
    let score := max 0 (min 100 (dimension_score + variation))
    { id := p.2.id
      dimension_code := dimension_code
      name := p.2.name
      score := score
      score_band := some (get_score_band score)
      contributing_question_ids := [] })

/-- `_build_dimensions`: one `Dimension` per extracted `CategoryScore`. -/
def _build_dimensions (category_scores : List CategoryScore) : List Dimension :=
  category_scores.map (fun cat =>
    let metadata := DIMENSION_METADATA cat.dimension_code
    { dimension_code := cat.dimension_code
      chapter_code := metadata.chapter
      name := metadata.name
      description := metadata.description
      score_overall := cat.score
      score_band := get_score_band cat.score
      sub_indicators := _build_sub_indicators cat.dimension_code cat.score
      benchmark := some { peer_percentile := (cat.percentile : ℚ),
                          band_description := "Peer " ++ toString cat.percentile
                            ++ "th percentile" } })

/-- `_build_chapters`: one `Chapter` per `ChapterCode` (in enum order); the
score is the mean of the chapter's dimensions, 60.0 when it has none.  The
band is computed on the unrounded mean, the stored score on the rounded. -/
def _build_chapters (dimensions : List Dimension) : List Chapter :=
  ChapterCode.all.map (fun chapter_code =>
    let chapter_dims := dimensions.filter
      (fun d => decide (d.chapter_code = chapter_code))
    let avg_score : ℚ :=
      if chapter_dims.isEmpty then 60
      else (chapter_dims.map (fun d => d.score_overall)).sum
             / (chapter_dims.length : ℚ)
    { chapter_code := chapter_code
      name := CHAPTER_NAMES chapter_code
      score_overall := round1 avg_score
      score_band := get_score_band avg_score })

/-- A rich-mode strength finding.  The compiler passes
`{"evidence": ..., "impact_level": ...}` as `evidence_refs`; pydantic coerces
it to `EvidenceRefs`, dropping the unknown keys, leaving all fields `None`. -/
def richStrengthFinding (dim_code : DimensionCode) (fid : ℕ)
    (s : P15Strength) : Finding :=
  { id := "finding-" ++ zfill3 fid
    dimension_code := dim_code
    type := .strength
    severity := "Low"
    confidence_level := "High"
    short_label := s.title.getD "Strength Identified"
    narrative := s.description.getD ""
    evidence_refs := some {} }

/-- `severity_map.get(severity.lower(), 'Medium')`. -/
def severityMapValue (s : String) : String :=
  match s with
  | "critical" => "Critical"
  | "high" => "High"
  | "medium" => "Medium"
  | "low" => "Low"
  | _ => "Medium"

/-- A rich-mode weakness finding: a `risk` when the raw severity label is
exactly "critical" or "high" (case-sensitive membership test), otherwise a
`gap`; the stored severity goes through `severity_map` on the lowercased
label.  A truthy `rootCause` is appended to the narrative. -/
def richWeaknessFinding (dim_code : DimensionCode) (fid : ℕ)
    (w : P15Weakness) : Finding :=
  let sevRaw := w.severity.getD "medium"
  let finding_type : FindingType :=
    if sevRaw = "critical" ∨ sevRaw = "high" then .risk else .gap
  let idm_severity := severityMapValue (pyLower sevRaw)
  let base := w.description.getD ""
  let narrative :=
    match w.rootCause with
    | some rc => if rc = "" then base else base ++ " Root cause: " ++ rc
    | none => base
  { id := "finding-" ++ zfill3 fid
    dimension_code := dim_code
    type := finding_type
    severity := idm_severity
    confidence_level := "High"
    short_label := w.title.getD "Gap Identified"
    narrative := narrative
    evidence_refs := some {} }

/-- Rich-mode findings for one category: all strengths, then all weaknesses,
with consecutive global ids starting at `fid`. -/
def richCategoryFindings (fid : ℕ) (cat : P15Category) : List Finding :=
  let dim_code := _normalize_dim_code cat.categoryCode
  cat.strengths.enum.map (fun p => richStrengthFinding dim_code (fid + p.1) p.2)
    ++ cat.weaknesses.enum.map (fun p =>
        richWeaknessFinding dim_code (fid + cat.strengths.length + p.1) p.2)

/-- Rich-mode findings across all categories, threading the global
`finding_id` counter. -/
def richFindings (fid : ℕ) : List P15Category → List Finding
  | [] => []
  | cat :: rest =>
      richCategoryFindings fid cat
        ++ richFindings (fid + cat.strengths.length + cat.weaknesses.length) rest

/-- The fallback (score-driven) findings for one dimension: score ≥ 80 gives
one strength, 40 ≤ score < 60 one gap, score < 40 one critical risk, and
scores in [60, 80) give nothing. -/
def fallbackFindingsForDim (dim : Dimension) : List Finding :=
  if 80 ≤ dim.score_overall then
    [{ id := "finding-strength-" ++ dim.dimension_code.value
       dimension_code := dim.dimension_code
       type := .strength
       severity := "Low"
       confidence_level := "High"
       short_label := dim.name ++ " Excellence"
       narrative := dim.name ++ " demonstrates strong performance at "
         ++ fmtScore dim.score_overall
         ++ "/100, placing it in the Excellence tier. This represents a competitive advantage."
       evidence_refs := some { metrics := some [dim.dimension_code.value ++ "_score"] } }]
  else if 40 ≤ dim.score_overall ∧ dim.score_overall < 60 then
    [{ id := "finding-gap-" ++ dim.dimension_code.value
       dimension_code := dim.dimension_code
       type := .gap
       severity := "Medium"
       confidence_level := "High"
       short_label := dim.name ++ " Performance Gap"
       narrative := dim.name ++ " shows moderate performance at "
         ++ fmtScore dim.score_overall
         ++ "/100. This gap presents improvement opportunities that should be addressed within 6-12 months."
       evidence_refs := some { metrics := some [dim.dimension_code.value ++ "_score"] } }]
  else if dim.score_overall < 40 then
    [{ id := "finding-risk-" ++ dim.dimension_code.value
       dimension_code := dim.dimension_code
       type := .risk
       severity := "Critical"
       confidence_level := "High"
       short_label := dim.name ++ " Critical Underperformance"
       narrative := dim.name ++ " is at critical levels with a score of "
         ++ fmtScore dim.score_overall
         ++ "/100. Immediate intervention is required to mitigate business risk."
       evidence_refs := some { metrics := some [dim.dimension_code.value ++ "_score"] } }]
  else []

/-- `_build_findings`: rich mode converts Phase 1.5 strengths/weaknesses;
fallback mode is purely score-driven per dimension. -/
def _build_findings (p15 : Phase15) (dimensions : List Dimension) : List Finding :=
  match p15.categoryAnalyses with
  | some cats => richFindings 1 cats
  | none => dimensions.flatMap fallbackFindingsForDim

/-- `horizon_map.get(effort, NINETY_DAYS)`. -/
def horizonFromEffort (effort : String) : RecommendationHorizon :=
  match effort with
  | "low" => .NINETY_DAYS
  | "medium" => .TWELVE_MONTHS
  | "high" => .TWENTY_FOUR_MONTHS_PLUS
  | _ => .NINETY_DAYS

/-- `impact_score_map.get(impact, 65)`. -/
def impactScoreValue (impact : String) : ℚ :=
  match impact with
  | "high" => 85
  | "medium" => 65
  | "low" => 45
  | _ => 65

/-- `effort_score_map.get(effort, 55)`. -/
def effortScoreValue (effort : String) : ℚ :=
  match effort with
  | "low" => 30
  | "medium" => 55
  | "high" => 80
  | _ => 55

/-- The ids of the gap/risk findings attached to a dimension code:
`[f.id for f in findings if f.dimension_code == dim_code and f.type in
[FindingType.GAP, FindingType.RISK]]` — the same selection is used by the
rich and the fallback recommendation builders. -/
def gapRiskFindingIds (findings : List Finding) (dim_code : DimensionCode) : List String :=
  (findings.filter (fun f => decide (f.dimension_code = dim_code)
      && (decide (f.type = .gap) || decide (f.type = .risk)))).map
    (fun f => f.id)

/-- A rich-mode recommendation built from one Phase 1.5 quick win. -/
def richQuickWinRec (findings : List Finding) (cat : P15Category) (rank : ℕ)
    (qw : P15QuickWin) : Recommendation :=
  let dim_code := _normalize_dim_code cat.categoryCode
  let effort := match qw.effort with
    | some s => pyLower s
    | none => "medium"
  let impact := match qw.impact with
    | some s => pyLower s
    | none => "medium"
  let linked_finding_ids := (gapRiskFindingIds findings dim_code).take 3
  let expected_outcomes := qw.description.getD "" ++
    (match qw.estimatedROI with
     | some roi => if roi = "" then "" else " Expected ROI: " ++ roi
     | none => "")
  { id := "rec-" ++ zfill3 rank
    dimension_code := dim_code
    linked_finding_ids := linked_finding_ids
    theme := qw.title.getD "Improvement Initiative"
    priority_rank := (rank : ℤ)
    impact_score := impactScoreValue impact
    effort_score := effortScoreValue effort
    horizon := horizonFromEffort effort
    required_capabilities := some [cat.categoryName, "Change Management"]
    action_steps :=
      [qw.description.getD "Implement improvement initiative",
       "Target timeline: " ++ qw.timeline.getD "90 days",
       "Monitor progress and measure outcomes",
       "Document learnings and best practices"]
    expected_outcomes := expected_outcomes }

/-- Rich-mode recommendations from the categories' quick wins, threading the
`priority_rank` counter. -/
def richRecs (rank : ℕ) (findings : List Finding) :
    List P15Category → List Recommendation
  | [] => []
  | cat :: rest =>
      cat.quickWins.enum.map (fun p => richQuickWinRec findings cat (rank + p.1) p.2)
        ++ richRecs (rank + cat.quickWins.length) findings rest

/-- A strategic cross-cutting recommendation from one `topOpportunities`
entry. -/
def opportunityRec (rank : ℕ) (opp : String) : Recommendation :=
  { id := "rec-" ++ zfill3 rank
    dimension_code := .STR
    linked_finding_ids := []
    theme := opp
    priority_rank := (rank : ℤ)
    impact_score := 80
    effort_score := 60
    horizon := .TWELVE_MONTHS
    required_capabilities := some ["Strategic Planning", "Cross-functional Leadership"]
    action_steps :=
      ["Strategic opportunity: " ++ opp,
       "Develop detailed implementation plan",
       "Assign executive sponsor and project team",
       "Establish milestones and success metrics"]
    expected_outcomes := "Strategic improvement through: " ++ opp }

/-- A fallback-mode recommendation for one below-excellence dimension with at
least one linked gap/risk finding. -/
def fallbackRec (rank : ℕ) (dim : Dimension) (linked : List String) : Recommendation :=
  let horizon : RecommendationHorizon :=
    if dim.score_overall < 40 then .NINETY_DAYS
    else if dim.score_overall < 60 then .TWELVE_MONTHS
    else .TWENTY_FOUR_MONTHS_PLUS
  { id := "rec-" ++ dim.dimension_code.value ++ "-" ++ toString rank
    dimension_code := dim.dimension_code
    linked_finding_ids := linked
    theme := dim.name ++ " Improvement Initiative"
    priority_rank := (rank : ℤ)
    impact_score := 100 - dim.score_overall
    effort_score := if dim.score_overall < 40 then 70 else 50
    horizon := horizon
    required_capabilities := some [dim.name, "Change Management"]
    action_steps :=
      ["Conduct detailed " ++ pyLower dim.name ++ " assessment",
       "Develop improvement plan with measurable KPIs",
       "Implement quick wins within first 30 days",
       "Monitor progress and adjust approach",
       "Document and share best practices"]
    expected_outcomes := "Improve " ++ dim.name ++ " score from "
      ++ fmtScore dim.score_overall ++ " to "
      ++ fmtScore (min 100 (dim.score_overall + 20))
      ++ " within the target horizon." }

/-- Fallback-mode recommendation generation over the dimensions sorted by
ascending score: excellence-tier dimensions and dimensions with no linked
gap/risk finding are skipped; `priority_rank` increments only on emission. -/
def fallbackRecs (rank : ℕ) (findings : List Finding) :
    List Dimension → List Recommendation
  | [] => []
  | dim :: rest =>
      if 80 ≤ dim.score_overall then fallbackRecs rank findings rest
      else if (gapRiskFindingIds findings dim.dimension_code).isEmpty then
        fallbackRecs rank findings rest
      else
        fallbackRec rank dim (gapRiskFindingIds findings dim.dimension_code)
          :: fallbackRecs (rank + 1) findings rest

/-- `_build_recommendations`: rich mode converts quick wins (then appends up
to 5 strategic opportunity recommendations, continuing the rank counter);
fallback mode iterates dimensions sorted ascending by score. -/
def _build_recommendations (p15 : Phase15) (dimensions : List Dimension)
    (findings : List Finding) : List Recommendation :=
  match p15.categoryAnalyses with
  | some cats =>
      let recs := richRecs 1 findings cats
      let next_rank := 1 + (cats.map (fun c => c.quickWins.length)).sum
      let opportunity_recs :=
        match p15.overallSummary with
        | some s =>
            if s.topOpportunities.isEmpty then []
            else (s.topOpportunities.take 5).enum.map
              (fun p => opportunityRec (next_rank + p.1) p.2)
        | none => []
      recs ++ opportunity_recs
  | none =>
      fallbackRecs 1 findings
        (pySorted (fun a b => decide (a.score_overall ≤ b.score_overall)) dimensions)

/-- The rich-mode quick-win backfill loop: append 90-day recommendations not
already selected, stopping at 10 total. -/
def quickWinBackfill (acc : List QuickWin) : List Recommendation → List QuickWin
  | [] => acc
  | r :: rest =>
      if r.horizon = .NINETY_DAYS then
        if acc.any (fun q => decide (q.recommendation_id = r.id)) then
          quickWinBackfill acc rest
        else if 10 ≤ (acc ++ [({ recommendation_id := r.id } : QuickWin)]).length then
          acc ++ [({ recommendation_id := r.id } : QuickWin)]
        else quickWinBackfill (acc ++ [({ recommendation_id := r.id } : QuickWin)]) rest
      else quickWinBackfill acc rest

/-- The impact/effort ratio used by the fallback quick-win ranking. -/
def quickWinRatio (r : Recommendation) : ℚ :=
  r.impact_score / max r.effort_score 1

/-- The fallback quick-win top-up loop over the 5 best-ratio recommendations:
append if not already selected, breaking once 5 are held. -/
def quickWinRatioFill (acc : List QuickWin) : List Recommendation → List QuickWin
  | [] => acc
  | r :: rest =>
      if acc.any (fun q => decide (q.recommendation_id = r.id)) then
        if 5 ≤ acc.length then acc else quickWinRatioFill acc rest
      else if 5 ≤ (acc ++ [({ recommendation_id := r.id } : QuickWin)]).length then
        acc ++ [({ recommendation_id := r.id } : QuickWin)]
      else quickWinRatioFill (acc ++ [({ recommendation_id := r.id } : QuickWin)]) rest

/-- `_build_quick_wins`: rich mode prefers low-effort/high-impact
recommendations (capped at 10), backfilling with 90-day ones when fewer than
5; fallback mode takes high-impact, low-effort, 90-day recommendations,
topping up from the best impact/effort ratios when fewer than 3. -/
def _build_quick_wins (p15 : Phase15)
    (recommendations : List Recommendation) : List QuickWin :=
  match p15.categoryAnalyses with
  | some _ =>
      let quick_wins := ((recommendations.filter (fun r =>
          decide (r.effort_score ≤ 40) && decide (60 ≤ r.impact_score))).take 10).map
        (fun r => { recommendation_id := r.id })
      if quick_wins.length < 5 then quickWinBackfill quick_wins recommendations
      else quick_wins
  | none =>
      let quick_wins := (recommendations.filter (fun r =>
          decide (60 ≤ r.impact_score) && decide (r.effort_score < 50)
            && decide (r.horizon = .NINETY_DAYS))).map
        (fun r => ({ recommendation_id := r.id } : QuickWin))
      if quick_wins.length < 3 then
        quickWinRatioFill quick_wins
          ((pySorted (fun a b => decide (quickWinRatio b ≤ quickWinRatio a))
            recommendations).take 5)
      else quick_wins

/-- `likelihood_map.get(label.lower(), 'Medium')`, shared by the likelihood
and impact lookups (the two Python maps are identical). -/
def likelihoodLevel (o : Option String) : String :=
  let raw := match o with
    | some s => pyLower s
    | none => "medium"
  match raw with
  | "low" => "Low"
  | "medium" => "Medium"
  | "high" => "High"
  | _ => "Medium"

/-- The 3x3 likelihood-times-impact severity matrix, default "Medium". -/
def severityFromMatrix (l i : String) : String :=
  if l = "High" ∧ i = "High" then "Critical"
  else if (l = "High" ∧ i = "Medium") ∨ (l = "Medium" ∧ i = "High") then "High"
  else if (l = "Medium" ∧ i = "Medium") ∨ (l = "Low" ∧ i = "High")
      ∨ (l = "High" ∧ i = "Low") then "Medium"
  else if (l = "Medium" ∧ i = "Low") ∨ (l = "Low" ∧ i = "Medium")
      ∨ (l = "Low" ∧ i = "Low") then "Low"
  else "Medium"

/-- A rich-mode risk from one Phase 1.5 category risk. -/
def richRiskEntry (cat : P15Category) (rid : ℕ) (cr : P15Risk) : Risk :=
  let dim_code := _normalize_dim_code cat.categoryCode
  let risk_level := likelihoodLevel cr.likelihood
  let impact_level := likelihoodLevel cr.impact
  let base := cr.description.getD ""
  let narrative :=
    match cr.mitigation with
    | some m => if m = "" then base else base ++ " Mitigation: " ++ m
    | none => base
  { id := "risk-" ++ zfill3 rid
    dimension_code := dim_code
    severity := severityFromMatrix risk_level impact_level
    likelihood := risk_level
    narrative := narrative
    category := some cat.categoryName }

/-- Rich-mode risks across the categories, threading the `risk_id` counter. -/
def richRisks (rid : ℕ) : List P15Category → List Risk
  | [] => []
  | cat :: rest =>
      cat.categoryRisks.enum.map (fun p => richRiskEntry cat (rid + p.1) p.2)
        ++ richRisks (rid + cat.categoryRisks.length) rest

/-- `_build_risks`: rich mode maps Phase 1.5 category risks through the
severity matrix; fallback mode derives one risk per risk-type or
critical-severity finding.  (The `dimensions` parameter is unused in Python
too.) -/
def _build_risks (p15 : Phase15) (_dimensions : List Dimension)
    (findings : List Finding) : List Risk :=
  match p15.categoryAnalyses with
  | some cats => richRisks 1 cats
  | none =>
      (findings.filter (fun f =>
          decide (f.type = .risk) || decide (f.severity = "Critical"))).map
        (fun f =>
          { id := "risk-" ++ f.id
            dimension_code := f.dimension_code
            severity := f.severity
            likelihood := "High"
            narrative := f.narrative
            category := some (DIMENSION_METADATA f.dimension_code).name })

/-- `_build_roadmap`: one phase per nonempty horizon group; a single
"Continuous Improvement" phase over the first 3 recommendations when all
three groups are empty. -/
def _build_roadmap (recommendations : List Recommendation) : Roadmap :=
  let phase1_recs := recommendations.filter (fun r => decide (r.horizon = .NINETY_DAYS))
  let phase2_recs := recommendations.filter (fun r => decide (r.horizon = .TWELVE_MONTHS))
  let phase3_recs := recommendations.filter
    (fun r => decide (r.horizon = .TWENTY_FOUR_MONTHS_PLUS))
  let phases : List RoadmapPhase :=
    (if phase1_recs.isEmpty then [] else
      [{ id := "phase-1"
         name := "Foundation & Quick Wins"
         time_horizon := "0-90 days"
         linked_recommendation_ids := phase1_recs.map (fun r => r.id)
         narrative := "Focus on immediate value creation through quick wins and critical risk mitigation. Build momentum with visible early successes." }])
    ++ (if phase2_recs.isEmpty then [] else
      [{ id := "phase-2"
         name := "Core Capability Building"
         time_horizon := "3-12 months"
         linked_recommendation_ids := phase2_recs.map (fun r => r.id)
         narrative := "Implement foundational improvements across key dimensions. Establish new processes and capabilities." }])
    ++ (if phase3_recs.isEmpty then [] else
      [{ id := "phase-3"
         name := "Strategic Transformation"
         time_horizon := "12-24+ months"
         linked_recommendation_ids := phase3_recs.map (fun r => r.id)
         narrative := "Execute long-term strategic initiatives. Transform organizational capabilities for sustained competitive advantage." }])
  if phases.isEmpty then
    { phases := [{ id := "phase-continuous"
                   name := "Continuous Improvement"
                   time_horizon := "Ongoing"
                   linked_recommendation_ids := (recommendations.take 3).map (fun r => r.id)
                   narrative := "Maintain focus on continuous improvement across all dimensions to sustain excellence." }] }
  else { phases := phases }

/-- `_build_scores_summary`: the overall score is the rounded mean of the
chapter scores (60.0 with no chapters); the trajectory compares the counts of
improving and declining category trends; the key imperatives render the 3
lowest-scoring dimensions.  (The `findings` parameter is unused in Python
too.) -/
def _build_scores_summary (category_scores : List CategoryScore)
    (chapters : List Chapter) (dimensions : List Dimension)
    (_findings : List Finding) : ScoresSummary :=
  let overall_score : ℚ :=
    if chapters.isEmpty then 60
    else round1 ((chapters.map (fun c => c.score_overall)).sum / (chapters.length : ℚ))
  let improving_count := (category_scores.filter
    (fun c => decide (c.trend = "improving"))).length
  let declining_count := (category_scores.filter
    (fun c => decide (c.trend = "declining"))).length
  let trajectory : Trajectory :=
    if declining_count + 2 < improving_count then .IMPROVING
    else if improving_count + 2 < declining_count then .DECLINING
    else .FLAT
  let sorted_dims := pySorted
    (fun a b => decide (a.score_overall ≤ b.score_overall)) dimensions
  { overall_health_score := overall_score
    descriptor := get_health_descriptor overall_score
    trajectory := trajectory
    key_imperatives := (sorted_dims.take 3).map (fun d =>
      "Improve " ++ d.name ++ " (currently " ++ fmtScore d.score_overall ++ "/100)") }

/-- The per-run fresh values: `str(uuid.uuid4())` for the assessment run id,
`datetime.utcnow().isoformat() + "Z"` for the creation timestamp, and the
second `str(uuid.uuid4())` that `compile_idm` uses as the company profile id
when `phase1` has no `company_profile_id` key. -/
structure FreshValues where
  assessment_run_id : String
  created_at : String
  fallback_company_id : String
deriving DecidableEq, Repr

/-- `compile_idm`: builds the complete IDM in dependency order.  `phase1` is
represented by its only consumed datum, the optional `company_profile_id`;
`phase2`/`phase3` are never read by the IDM construction. -/
def compile_idm (phase1_company_id : Option String) (p15 : Phase15)
    (webhook : Webhook) (fresh : FreshValues) : IDM :=
  let company_id := phase1_company_id.getD fresh.fallback_company_id
  let meta : Meta :=
    { assessment_run_id := fresh.assessment_run_id
      company_profile_id := company_id
      created_at := fresh.created_at
      methodology_version := "1.0.0"
      scoring_version := "1.0.0"
      idm_schema_version := "1.0.0" }
  let category_scores := _extract_category_scores p15 webhook
  let questions := _build_questions webhook
  let dimensions := _build_dimensions category_scores
  let chapters := _build_chapters dimensions
  let findings := _build_findings p15 dimensions
  let recommendations := _build_recommendations p15 dimensions findings
  let quick_wins := _build_quick_wins p15 recommendations
  let risks := _build_risks p15 dimensions findings
  let roadmap := _build_roadmap recommendations
  let scores_summary := _build_scores_summary category_scores chapters dimensions findings
  { meta := meta
    chapters := chapters
    dimensions := dimensions
    questions := questions
    findings := findings
    recommendations := recommendations
    quick_wins := quick_wins
    risks := risks
    roadmap := roadmap
    scores_summary := scores_summary }

/-! ## IDM validation (idm_models.py)

`validate_idm(data)` is `IDM(**data)`: pydantic constructs the model, checking
field presence, types/enum membership, and the declared `Field` value
constraints.  The model declares *no* custom validators (the imported
`validator` decorator is unused), so construction succeeds for any well-typed document whose
constrained numeric fields are in range — no cross-field or referential check
is performed.  The embedding works on well-typed candidates (type and enum
errors are ruled out by the Lean types) and makes the value-range checks
explicit, reporting each violation with its field path, exactly the checks
pydantic runs. -/

/-- Range check for an optional 0-100 field. -/
def optRangeOk (o : Option ℚ) : Bool :=
  match o with
  | some q => decide (0 ≤ q) && decide (q ≤ 100)
  | none => true

/-- Range check for an optional benchmark. -/
def benchmarkViolations (path : String) (b : Option Benchmark) : List String :=
  match b with
  | some bm =>
      if decide (0 ≤ bm.peer_percentile) && decide (bm.peer_percentile ≤ 100) then []
      else [path ++ ".peer_percentile"]
  | none => []

/-- The value-range checks pydantic performs when constructing `IDM(**data)`:
every declared `Field(ge=..., le=...)`/`Field(gt=...)` constraint, reported
with its field path. -/
def pydanticViolations (d : IDM) : List String :=
  (d.chapters.enum.flatMap (fun p =>
    let path := "chapters." ++ toString p.1
    (if decide (0 ≤ p.2.score_overall) && decide (p.2.score_overall ≤ 100)
     then [] else [path ++ ".score_overall"])
    ++ benchmarkViolations (path ++ ".benchmark") p.2.benchmark
    ++ (if optRangeOk p.2.previous_score_overall then []
        else [path ++ ".previous_score_overall"])))
  ++ (d.dimensions.enum.flatMap (fun p =>
    let path := "dimensions." ++ toString p.1
    (if decide (0 ≤ p.2.score_overall) && decide (p.2.score_overall ≤ 100)
     then [] else [path ++ ".score_overall"])
    ++ (p.2.sub_indicators.enum.flatMap (fun q =>
        if decide (0 ≤ q.2.score) && decide (q.2.score ≤ 100) then []
        else [path ++ ".sub_indicators." ++ toString q.1 ++ ".score"]))
    ++ benchmarkViolations (path ++ ".benchmark") p.2.benchmark
    ++ (if optRangeOk p.2.previous_score_overall then []
        else [path ++ ".previous_score_overall"])))
  ++ (d.questions.enum.flatMap (fun p =>
    if optRangeOk p.2.normalized_score then []
    else ["questions." ++ toString p.1 ++ ".normalized_score"]))
  ++ (d.recommendations.enum.flatMap (fun p =>
    let path := "recommendations." ++ toString p.1
    (if decide (0 < p.2.priority_rank) then [] else [path ++ ".priority_rank"])
    ++ (if decide (0 ≤ p.2.impact_score) && decide (p.2.impact_score ≤ 100)
        then [] else [path ++ ".impact_score"])
    ++ (if decide (0 ≤ p.2.effort_score) && decide (p.2.effort_score ≤ 100)
        then [] else [path ++ ".effort_score"])))
  ++ (if decide (0 ≤ d.scores_summary.overall_health_score)
        && decide (d.scores_summary.overall_health_score ≤ 100)
      then [] else ["scores_summary.overall_health_score"])

/-- `validate_idm`: returns the parsed IDM, or raises (models the pydantic
`ValidationError` as the error branch carrying the joined field paths). -/
def validate_idm (d : IDM) : Except String IDM :=
  match pydanticViolations d with
  | [] => .ok d
  | vs => .error (String.intercalate "; " vs)

/-- `validate_idm_safe`: `(idm, None)` on success, `(None, message)` on
failure. -/
def validate_idm_safe (d : IDM) : Option IDM × Option String :=
  match pydanticViolations d with
  | [] => (some d, none)
  | vs => (none, some (String.intercalate "; " vs))

/-- Modelled from the spec: the referential-integrity property the spec
ascribes to the IDM Schema Validator — every `linked_finding_ids` entry,
every `Risk.linked_recommendation_ids` entry and every
`quick_wins[].recommendation_id` resolves to an existing id in the same
document.  (Stated here as the spec's reference predicate; the code-derived
`validate_idm` above is to be compared against it.) -/
def spec_referential_integrity (d : IDM) : Bool :=
  d.recommendations.all (fun r => r.linked_finding_ids.all
    (fun fid => d.findings.any (fun f => decide (f.id = fid))))
  && d.quick_wins.all (fun q =>
      d.recommendations.any (fun r => decide (r.id = q.recommendation_id)))
  && d.risks.all (fun rk => (rk.linked_recommendation_ids.getD []).all
      (fun rid => d.recommendations.any (fun r => decide (r.id = rid))))

/-! ## Helper lemmas -/

theorem chapter_code_of_mem_build_dimensions {cs : List CategoryScore} {d : Dimension}
    (hd : d ∈ _build_dimensions cs) :
    d.chapter_code = (DIMENSION_METADATA d.dimension_code).chapter := by
  rcases List.mem_map.1 hd with ⟨cat, _, rfl⟩
  rfl

/-! ## Claim C1 -/

/-- C1: the Category Score Extractor returns exactly 12 `CategoryScore`
entries, one per canonical dimension code with none missing or duplicated,
whenever the rich Phase 1.5 path is not taken (no `categoryAnalyses` key);
when the rich path is taken it returns exactly one entry per listed category
analysis, so the count is 12 only when the rich source itself supplies 12
categories.  (The original claim's "for every combination of inputs" fails on
the rich path: see the counterexample.) -/
theorem C1_extract_category_scores_shape :
    (∀ (os : Option P15Summary) (w : Webhook),
      (_extract_category_scores ⟨none, os⟩ w).map (fun c => c.dimension_code)
        = DimensionCode.all)
    ∧ (∀ (cats : List P15Category) (os : Option P15Summary) (w : Webhook),
      (_extract_category_scores ⟨some cats, os⟩ w).length = cats.length) := by
  constructor
  · intro os w
    rfl
  · intro cats os w
    simp [_extract_category_scores]

/-- C1 counterexample: with a rich Phase 1.5 source whose `categoryAnalyses`
list is empty, the extractor returns 0 entries, not 12. -/
theorem C1_counterexample_rich_source :
    (_extract_category_scores { categoryAnalyses := some [], overallSummary := none }
      []).length ≠ 12 := by
  decide

/-! ## Claim C3 -/

/-- C3: with no Phase 1.5 `categoryAnalyses` and no webhook data, the
extractor still returns 12 entries, one per canonical code — but via the
webhook fallback path with every score 60.0, not via `_get_default_scores`
(Strategy 68, Sales 72, ...), which the counterexample shows is not
returned. -/
theorem C3_no_data_scores_are_sixty :
    ((_extract_category_scores ⟨none, none⟩ []).map (fun c => c.score)
      = List.replicate 12 (60 : ℚ))
    ∧ ((_extract_category_scores ⟨none, none⟩ []).map (fun c => c.dimension_code)
      = DimensionCode.all) :=
  ⟨rfl, rfl⟩

/-- C3 counterexample: the extractor's result on empty inputs differs from
the fixed `_get_default_scores` list (e.g. Strategy scores 60.0, not 68). -/
theorem C3_counterexample_not_defaults :
    _extract_category_scores ⟨none, none⟩ [] ≠ _get_default_scores := by
  with_unfolding_all decide

/-! ## Claim C4 -/

/-- C4: given no Phase 1.5 input and an empty webhook payload, every
extracted category score is 60.0, the compiled IDM's
`scores_summary.overall_health_score` is 60.0 and its descriptor is
"Needs Improvement" — for any fresh run id / timestamp values. -/
theorem C4_empty_inputs_summary (fresh : FreshValues) :
    ((_extract_category_scores ⟨none, none⟩ []).map (fun c => c.score)
      = List.replicate 12 (60 : ℚ))
    ∧ (compile_idm none ⟨none, none⟩ [] fresh).scores_summary.overall_health_score = 60
    ∧ (compile_idm none ⟨none, none⟩ [] fresh).scores_summary.descriptor
      = "Needs Improvement" := by
  refine ⟨rfl, ?_, ?_⟩ <;> with_unfolding_all rfl

/-! ## Claim C5 -/

/-- C5: every compiled IDM has exactly 4 chapters, and every dimension's
`chapter_code` equals the Domain Schema's fixed mapping
(`DIMENSION_METADATA`); the dimension count is 12 whenever the rich Phase 1.5
path is not taken, and equals the number of `categoryAnalyses` entries when
it is (so the original "exactly 12 dimensions for every input" fails on rich
inputs: see the counterexample). -/
theorem C5_chapters_and_dimension_mapping (pc : Option String) (p15 : Phase15)
    (w : Webhook) (fresh : FreshValues) :
    (compile_idm pc p15 w fresh).chapters.length = 4
    ∧ (∀ d ∈ (compile_idm pc p15 w fresh).dimensions,
        d.chapter_code = (DIMENSION_METADATA d.dimension_code).chapter)
    ∧ (p15.categoryAnalyses = none → (compile_idm pc p15 w fresh).dimensions.length = 12)
    ∧ (∀ cats, p15.categoryAnalyses = some cats →
        (compile_idm pc p15 w fresh).dimensions.length = cats.length) := by
  obtain ⟨ca, os⟩ := p15
  refine ⟨rfl, ?_, ?_, ?_⟩
  · intro d hd
    exact chapter_code_of_mem_build_dimensions hd
  · intro h
    cases h
    rfl
  · intro cats h
    cases h
    show (_build_dimensions (_extract_category_scores ⟨some cats, os⟩ w)).length
      = cats.length
    simp [_build_dimensions, _extract_category_scores]

/-- C5 witness: at concrete empty inputs the theorem yields the 12-dimension
count. -/
theorem C5_witness :
    (compile_idm none ⟨none, none⟩ []
      ⟨"run-1", "2025-01-01T00:00:00Z", "company-1"⟩).dimensions.length = 12 :=
  (C5_chapters_and_dimension_mapping none ⟨none, none⟩ []
    ⟨"run-1", "2025-01-01T00:00:00Z", "company-1"⟩).2.2.1 rfl

/-- C5 counterexample: with a rich Phase 1.5 source whose `categoryAnalyses`
list is empty, the compiled IDM has 0 dimensions, not 12. -/
theorem C5_counterexample_rich_source :
    (compile_idm none { categoryAnalyses := some [], overallSummary := none } []
      ⟨"run-1", "2025-01-01T00:00:00Z", "company-1"⟩).dimensions.length ≠ 12 := by
  decide

/-! ## Claim C2 -/

/-- An in-range IDM document in which a recommendation's
`linked_finding_ids` entry ("finding-999") resolves to no finding in the same
document. -/
def danglingIDM : IDM :=
  { meta := { assessment_run_id := "run-1"
              company_profile_id := "company-1"
              created_at := "2025-01-01T00:00:00Z" }
    chapters := []
    dimensions := []
    questions := []
    findings := []
    recommendations :=
      [{ id := "rec-001"
         dimension_code := .STR
         linked_finding_ids := ["finding-999"]
         theme := "Test Theme"
         priority_rank := 1
         impact_score := 70
         effort_score := 50
         horizon := .NINETY_DAYS
         action_steps := ["Step 1"]
         expected_outcomes := "Outcomes" }]
    quick_wins := []
    risks := []
    roadmap := { phases := [] }
    scores_summary := { overall_health_score := 70
                        descriptor := "Fair Health"
                        trajectory := .FLAT
                        key_imperatives := [] } }

/-- C2: contrary to the claim, the IDM Schema Validator performs no
referential-integrity check: `IDM(**data)` runs only pydantic's per-field
checks (presence, types/enums, declared value ranges), and the model declares
no cross-field validator.  Amended: `validate_idm` / `validate_idm_safe`
accept any well-typed document whose constrained numeric fields are in range,
dangling references included, returning it with no violation report. -/
theorem C2_validator_accepts_in_range (d : IDM) (h : pydanticViolations d = []) :
    validate_idm_safe d = (some d, none) ∧ validate_idm d = Except.ok d := by
  constructor <;> simp [validate_idm_safe, validate_idm, h]

/-- C2 witness: the dangling document is in range, so the amended theorem
applies to it. -/
theorem C2_witness :
    validate_idm_safe danglingIDM = (some danglingIDM, none)
    ∧ validate_idm danglingIDM = Except.ok danglingIDM :=
  C2_validator_accepts_in_range danglingIDM (by with_unfolding_all decide)

/-- C2 counterexample: a document with a dangling `linked_finding_ids` entry
is accepted by `validate_idm_safe` with no reported violation, although it
violates the referential integrity the spec ascribes to the validator. -/
theorem C2_counterexample_dangling_accepted :
    (validate_idm_safe danglingIDM).2 = none
    ∧ spec_referential_integrity danglingIDM = false := by
  constructor
  · with_unfolding_all decide
  · decide

/-! ## Claim C9 -/

/-- C9: two compilations from identical upstream inputs agree on every part
of the IDM outside `meta`, and within `meta` on the version fields; the
company profile id also agrees whenever phase1 supplies one.  (The original
claim — identical except `meta.assessment_run_id` and `meta.created_at`
only — fails when phase1 lacks `company_profile_id`, because
`compile_idm` then draws a fresh UUID for `meta.company_profile_id` too:
see the counterexample.) -/
theorem C9_determinism (pc : Option String) (p15 : Phase15) (w : Webhook)
    (f1 f2 : FreshValues) :
    (compile_idm pc p15 w f1).chapters = (compile_idm pc p15 w f2).chapters
    ∧ (compile_idm pc p15 w f1).dimensions = (compile_idm pc p15 w f2).dimensions
    ∧ (compile_idm pc p15 w f1).questions = (compile_idm pc p15 w f2).questions
    ∧ (compile_idm pc p15 w f1).findings = (compile_idm pc p15 w f2).findings
    ∧ (compile_idm pc p15 w f1).recommendations = (compile_idm pc p15 w f2).recommendations
    ∧ (compile_idm pc p15 w f1).quick_wins = (compile_idm pc p15 w f2).quick_wins
    ∧ (compile_idm pc p15 w f1).risks = (compile_idm pc p15 w f2).risks
    ∧ (compile_idm pc p15 w f1).roadmap = (compile_idm pc p15 w f2).roadmap
    ∧ (compile_idm pc p15 w f1).scores_summary = (compile_idm pc p15 w f2).scores_summary
    ∧ (compile_idm pc p15 w f1).meta.methodology_version
      = (compile_idm pc p15 w f2).meta.methodology_version
    ∧ (compile_idm pc p15 w f1).meta.scoring_version
      = (compile_idm pc p15 w f2).meta.scoring_version
    ∧ (compile_idm pc p15 w f1).meta.idm_schema_version
      = (compile_idm pc p15 w f2).meta.idm_schema_version
    ∧ (∀ cid, pc = some cid →
        (compile_idm pc p15 w f1).meta.company_profile_id
          = (compile_idm pc p15 w f2).meta.company_profile_id) := by
  refine ⟨rfl, rfl, rfl, rfl, rfl, rfl, rfl, rfl, rfl, rfl, rfl, rfl, ?_⟩
  intro cid h
  cases h
  rfl

/-- C9 witness: with a phase1-supplied company profile id, the two runs agree
on `meta.company_profile_id`. -/
theorem C9_witness :
    (compile_idm (some "acme-1") ⟨none, none⟩ []
        ⟨"run-a", "time-a", "fallback-a"⟩).meta.company_profile_id
      = (compile_idm (some "acme-1") ⟨none, none⟩ []
        ⟨"run-b", "time-b", "fallback-b"⟩).meta.company_profile_id :=
  (C9_determinism (some "acme-1") ⟨none, none⟩ []
    ⟨"run-a", "time-a", "fallback-a"⟩ ⟨"run-b", "time-b", "fallback-b"⟩).2.2.2.2.2.2.2.2.2.2.2.2
    "acme-1" rfl

/-- C9 counterexample: over byte-identical upstream inputs whose phase1 lacks
`company_profile_id`, two runs differ in `meta.company_profile_id` — a field
the claim asserts to be identical. -/
theorem C9_counterexample_company_id :
    (compile_idm none ⟨none, none⟩ []
        ⟨"run-a", "time-a", "company-a"⟩).meta.company_profile_id
      ≠ (compile_idm none ⟨none, none⟩ []
        ⟨"run-b", "time-b", "company-b"⟩).meta.company_profile_id := by
  decide

/-! ## Claim C10 -/

/-- C10: in every compiled IDM, every sub-indicator's
`contributing_question_ids` list is empty — `_build_sub_indicators` always
stores `[]`, even when webhook responses are present and Question entities
are built from them. -/
theorem C10_sub_indicator_question_ids (pc : Option String) (p15 : Phase15)
    (w : Webhook) (fresh : FreshValues) :
    ∀ d ∈ (compile_idm pc p15 w fresh).dimensions, ∀ si ∈ d.sub_indicators,
      si.contributing_question_ids = [] := by
  intro d hd si hsi
  have hd' : d ∈ _build_dimensions (_extract_category_scores p15 w) := hd
  simp only [_build_dimensions] at hd'
  rcases List.mem_map.1 hd' with ⟨cat, _, rfl⟩
  simp only [_build_sub_indicators] at hsi
  rcases List.mem_map.1 hsi with ⟨p, _, rfl⟩
  rfl

/-- A placeholder dimension for total list indexing in the C10 witness. -/
def dummyDimension : Dimension :=
  { dimension_code := .STR
    chapter_code := .GE
    name := ""
    description := ""
    score_overall := 0
    score_band := .CRITICAL
    sub_indicators := [] }

/-- A placeholder sub-indicator for total list indexing in the C10 witness. -/
def dummySubIndicator : SubIndicator :=
  { id := ""
    dimension_code := .STR
    name := ""
    score := 0
    contributing_question_ids := ["nonempty"] }

/-- The concrete compiled IDM used by the C10 witness: a webhook response is
present, so a Question entity is in fact built. -/
def c10idm : IDM :=
  compile_idm none ⟨none, none⟩ [("strategy", [("q1", JValue.num 3)])]
    ⟨"run-1", "2025-01-01T00:00:00Z", "company-1"⟩

/-- C10 witness: the first sub-indicator of the first dimension of a concrete
compiled IDM has no contributing question ids. -/
theorem C10_witness :
    ((c10idm.dimensions.headD dummyDimension).sub_indicators.headD
      dummySubIndicator).contributing_question_ids = [] := by
  have h := C10_sub_indicator_question_ids none ⟨none, none⟩
    [("strategy", [("q1", JValue.num 3)])] ⟨"run-1", "2025-01-01T00:00:00Z", "company-1"⟩
  refine h (c10idm.dimensions.headD dummyDimension) ?_
    ((c10idm.dimensions.headD dummyDimension).sub_indicators.headD dummySubIndicator) ?_
  · with_unfolding_all decide
  · with_unfolding_all decide

/-! ## Claim C6 -/

theorem dimension_code_of_mem_fallbackFindings {d : Dimension} {f : Finding}
    (hf : f ∈ fallbackFindingsForDim d) : f.dimension_code = d.dimension_code := by
  unfold fallbackFindingsForDim at hf
  split_ifs at hf
  · rw [List.mem_singleton] at hf; subst hf; rfl
  · rw [List.mem_singleton] at hf; subst hf; rfl
  · rw [List.mem_singleton] at hf; subst hf; rfl
  · cases hf

theorem filter_flatMap_fallbackFindings {dims : List Dimension} {d : Dimension}
    (hnd : (dims.map (fun x => x.dimension_code)).Nodup) (hd : d ∈ dims) :
    (dims.flatMap fallbackFindingsForDim).filter
        (fun f => decide (f.dimension_code = d.dimension_code))
      = fallbackFindingsForDim d := by
  induction dims with
  | nil => cases hd
  | cons a tl ih =>
    rw [List.flatMap_cons, List.filter_append]
    rw [List.map_cons, List.nodup_cons] at hnd
    rcases List.mem_cons.1 hd with rfl | hmem
    · have h1 : (fallbackFindingsForDim d).filter
          (fun f => decide (f.dimension_code = d.dimension_code))
          = fallbackFindingsForDim d := by
        apply List.filter_eq_self.2
        intro f hf
        simp [dimension_code_of_mem_fallbackFindings hf]
      have h2 : (tl.flatMap fallbackFindingsForDim).filter
          (fun f => decide (f.dimension_code = d.dimension_code)) = [] := by
        apply List.filter_eq_nil_iff.2
        intro f hf
        rcases List.mem_flatMap.1 hf with ⟨d', hd', hfd'⟩
        have hcode := dimension_code_of_mem_fallbackFindings hfd'
        simp only [decide_eq_true_eq]
        intro hEq
        exact hnd.1 (List.mem_map.2 ⟨d', hd', by rw [← hcode, hEq]⟩)
      rw [h1, h2, List.append_nil]
    · have h1 : (fallbackFindingsForDim a).filter
          (fun f => decide (f.dimension_code = d.dimension_code)) = [] := by
        apply List.filter_eq_nil_iff.2
        intro f hf
        have hcode := dimension_code_of_mem_fallbackFindings hf
        simp only [decide_eq_true_eq]
        intro hEq
        exact hnd.1 (List.mem_map.2 ⟨d, hmem, by rw [← hEq, hcode]⟩)
      rw [h1, List.nil_append]
      exact ih hnd.2 hmem

/-- C6: in fallback mode (no rich Phase 1.5 source), finding generation is
purely score-driven.  For a dimension `d` of the (code-wise duplicate-free)
dimension list: score ≥ 80 yields exactly one Strength finding for `d`;
40 ≤ score < 60 exactly one Gap finding; score < 40 exactly one Risk finding
with severity "Critical"; and a score in [60, 80) yields no finding for
`d`. -/
theorem C6_fallback_findings_score_driven (os : Option P15Summary)
    (dims : List Dimension) (d : Dimension)
    (hnd : (dims.map (fun x => x.dimension_code)).Nodup) (hd : d ∈ dims) :
    (80 ≤ d.score_overall →
      ((_build_findings ⟨none, os⟩ dims).filter
          (fun f => decide (f.dimension_code = d.dimension_code))).map
        (fun f => (f.type, f.severity)) = [(FindingType.strength, "Low")])
    ∧ (40 ≤ d.score_overall ∧ d.score_overall < 60 →
      ((_build_findings ⟨none, os⟩ dims).filter
          (fun f => decide (f.dimension_code = d.dimension_code))).map
        (fun f => (f.type, f.severity)) = [(FindingType.gap, "Medium")])
    ∧ (d.score_overall < 40 →
      ((_build_findings ⟨none, os⟩ dims).filter
          (fun f => decide (f.dimension_code = d.dimension_code))).map
        (fun f => (f.type, f.severity)) = [(FindingType.risk, "Critical")])
    ∧ (60 ≤ d.score_overall ∧ d.score_overall < 80 →
      ((_build_findings ⟨none, os⟩ dims).filter
          (fun f => decide (f.dimension_code = d.dimension_code))).map
        (fun f => (f.type, f.severity)) = []) := by
  have key : (_build_findings ⟨none, os⟩ dims).filter
      (fun f => decide (f.dimension_code = d.dimension_code))
      = fallbackFindingsForDim d :=
    filter_flatMap_fallbackFindings hnd hd
  refine ⟨?_, ?_, ?_, ?_⟩ <;> intro h <;> rw [key] <;> unfold fallbackFindingsForDim
  · rw [if_pos h]; rfl
  · rw [if_neg (by push_neg; linarith [h.2]), if_pos h]; rfl
  · rw [if_neg (by push_neg; linarith), if_neg (by intro hc; linarith [hc.1]),
      if_pos h]; rfl
  · rw [if_neg (by push_neg; linarith [h.2]),
      if_neg (by intro hc; linarith [h.1, hc.2]), if_neg (by push_neg; linarith [h.1])]
    rfl

/-- An example dimension used by claim witnesses. -/
def exampleDimension (c : DimensionCode) (s : ℚ) : Dimension :=
  { dimension_code := c
    chapter_code := (DIMENSION_METADATA c).chapter
    name := (DIMENSION_METADATA c).name
    description := (DIMENSION_METADATA c).description
    score_overall := s
    score_band := get_score_band s
    sub_indicators := [] }

/-- C6 witness: a dimension with score 85 among a two-dimension fallback list
produces exactly one Strength finding. -/
theorem C6_witness :
    ((_build_findings ⟨none, none⟩
        [exampleDimension .STR 85, exampleDimension .MKT 35]).filter
      (fun f => decide (f.dimension_code = (exampleDimension .STR 85).dimension_code))).map
        (fun f => (f.type, f.severity)) = [(FindingType.strength, "Low")] :=
  (C6_fallback_findings_score_driven none
    [exampleDimension .STR 85, exampleDimension .MKT 35]
    (exampleDimension .STR 85)
    (by with_unfolding_all decide) (by with_unfolding_all decide)).1
    (by norm_num [exampleDimension])

/-! ## Claim C8 -/

theorem any_eq_not_isEmpty_filter (p : α → Bool) (l : List α) :
    l.any p = !(l.filter p).isEmpty := by
  induction l with
  | nil => rfl
  | cons a tl ih =>
    by_cases h : p a = true <;> simp [List.filter_cons, h, ih]

/-- C8: the built roadmap emits a horizon phase exactly when at least one
recommendation has that horizon; when no horizon phase would result it emits
exactly one fallback "Continuous Improvement" phase referencing up to the
first 3 recommendations; and every recommendation's id appears in the
`linked_recommendation_ids` of at least one phase. -/
theorem C8_roadmap_structure (recs : List Recommendation) :
    ((_build_roadmap recs).phases.any (fun ph => decide (ph.id = "phase-1"))
      = recs.any (fun r => decide (r.horizon = RecommendationHorizon.NINETY_DAYS)))
    ∧ ((_build_roadmap recs).phases.any (fun ph => decide (ph.id = "phase-2"))
      = recs.any (fun r => decide (r.horizon = RecommendationHorizon.TWELVE_MONTHS)))
    ∧ ((_build_roadmap recs).phases.any (fun ph => decide (ph.id = "phase-3"))
      = recs.any (fun r => decide (r.horizon = RecommendationHorizon.TWENTY_FOUR_MONTHS_PLUS)))
    ∧ ((∀ r ∈ recs, r.horizon ≠ RecommendationHorizon.NINETY_DAYS
          ∧ r.horizon ≠ RecommendationHorizon.TWELVE_MONTHS
          ∧ r.horizon ≠ RecommendationHorizon.TWENTY_FOUR_MONTHS_PLUS) →
        (_build_roadmap recs).phases
          = [{ id := "phase-continuous"
               name := "Continuous Improvement"
               time_horizon := "Ongoing"
               linked_recommendation_ids := (recs.take 3).map (fun r => r.id)
               narrative := "Maintain focus on continuous improvement across all dimensions to sustain excellence." }])
    ∧ (∀ r ∈ recs, ∃ ph ∈ (_build_roadmap recs).phases,
        r.id ∈ ph.linked_recommendation_ids) := by
  refine ⟨?_, ?_, ?_, ?_, ?_⟩
  · rw [any_eq_not_isEmpty_filter (fun r => decide (r.horizon = RecommendationHorizon.NINETY_DAYS)) recs]
    simp only [_build_roadmap]
    by_cases h1 : (recs.filter
        (fun r => decide (r.horizon = RecommendationHorizon.NINETY_DAYS))).isEmpty = true
    · by_cases h2 : (recs.filter
          (fun r => decide (r.horizon = RecommendationHorizon.TWELVE_MONTHS))).isEmpty = true
      <;> by_cases h3 : (recs.filter
          (fun r => decide (r.horizon = RecommendationHorizon.TWENTY_FOUR_MONTHS_PLUS))).isEmpty = true
      <;> simp [h1, h2, h3]
    · rw [Bool.not_eq_true] at h1
      simp [h1]
  · rw [any_eq_not_isEmpty_filter (fun r => decide (r.horizon = RecommendationHorizon.TWELVE_MONTHS)) recs]
    simp only [_build_roadmap]
    by_cases h2 : (recs.filter
        (fun r => decide (r.horizon = RecommendationHorizon.TWELVE_MONTHS))).isEmpty = true
    · by_cases h1 : (recs.filter
          (fun r => decide (r.horizon = RecommendationHorizon.NINETY_DAYS))).isEmpty = true
      <;> by_cases h3 : (recs.filter
          (fun r => decide (r.horizon = RecommendationHorizon.TWENTY_FOUR_MONTHS_PLUS))).isEmpty = true
      <;> simp [h1, h2, h3]
    · rw [Bool.not_eq_true] at h2
      simp [h2]
  · rw [any_eq_not_isEmpty_filter (fun r => decide (r.horizon = RecommendationHorizon.TWENTY_FOUR_MONTHS_PLUS)) recs]
    simp only [_build_roadmap]
    by_cases h3 : (recs.filter
        (fun r => decide (r.horizon = RecommendationHorizon.TWENTY_FOUR_MONTHS_PLUS))).isEmpty = true
    · by_cases h1 : (recs.filter
          (fun r => decide (r.horizon = RecommendationHorizon.NINETY_DAYS))).isEmpty = true
      <;> by_cases h2 : (recs.filter
          (fun r => decide (r.horizon = RecommendationHorizon.TWELVE_MONTHS))).isEmpty = true
      <;> simp [h1, h2, h3]
    · rw [Bool.not_eq_true] at h3
      simp [h3]
  · intro hAll
    have hnil : recs = [] := by
      apply List.eq_nil_iff_forall_not_mem.2
      intro r hr
      rcases hAll r hr with ⟨n1, n2, n3⟩
      cases hh : r.horizon
      · exact n1 hh
      · exact n2 hh
      · exact n3 hh
    subst hnil
    rfl
  · intro r hr
    cases hh : r.horizon
    · have hmem : r ∈ recs.filter
          (fun x => decide (x.horizon = RecommendationHorizon.NINETY_DAYS)) :=
        List.mem_filter.2 ⟨hr, by simp [hh]⟩
      have hne : (recs.filter
          (fun x => decide (x.horizon = RecommendationHorizon.NINETY_DAYS))).isEmpty = false := by
        rw [← Bool.not_eq_true, List.isEmpty_iff]
        intro he
        rw [he] at hmem
        cases hmem
      refine ⟨{ id := "phase-1"
                name := "Foundation & Quick Wins"
                time_horizon := "0-90 days"
                linked_recommendation_ids := (recs.filter
                  (fun x => decide (x.horizon = RecommendationHorizon.NINETY_DAYS))).map
                    (fun x => x.id)
                narrative := "Focus on immediate value creation through quick wins and critical risk mitigation. Build momentum with visible early successes." },
        ?_, List.mem_map.2 ⟨r, hmem, rfl⟩⟩
      simp only [_build_roadmap]
      simp [hne]
    · have hmem : r ∈ recs.filter
          (fun x => decide (x.horizon = RecommendationHorizon.TWELVE_MONTHS)) :=
        List.mem_filter.2 ⟨hr, by simp [hh]⟩
      have hne : (recs.filter
          (fun x => decide (x.horizon = RecommendationHorizon.TWELVE_MONTHS))).isEmpty = false := by
        rw [← Bool.not_eq_true, List.isEmpty_iff]
        intro he
        rw [he] at hmem
        cases hmem
      refine ⟨{ id := "phase-2"
                name := "Core Capability Building"
                time_horizon := "3-12 months"
                linked_recommendation_ids := (recs.filter
                  (fun x => decide (x.horizon = RecommendationHorizon.TWELVE_MONTHS))).map
                    (fun x => x.id)
                narrative := "Implement foundational improvements across key dimensions. Establish new processes and capabilities." },
        ?_, List.mem_map.2 ⟨r, hmem, rfl⟩⟩
      simp only [_build_roadmap]
      simp [hne]
    · have hmem : r ∈ recs.filter
          (fun x => decide (x.horizon = RecommendationHorizon.TWENTY_FOUR_MONTHS_PLUS)) :=
        List.mem_filter.2 ⟨hr, by simp [hh]⟩
      have hne : (recs.filter
          (fun x => decide (x.horizon = RecommendationHorizon.TWENTY_FOUR_MONTHS_PLUS))).isEmpty = false := by
        rw [← Bool.not_eq_true, List.isEmpty_iff]
        intro he
        rw [he] at hmem
        cases hmem
      refine ⟨{ id := "phase-3"
                name := "Strategic Transformation"
                time_horizon := "12-24+ months"
                linked_recommendation_ids := (recs.filter
                  (fun x => decide (x.horizon = RecommendationHorizon.TWENTY_FOUR_MONTHS_PLUS))).map
                    (fun x => x.id)
                narrative := "Execute long-term strategic initiatives. Transform organizational capabilities for sustained competitive advantage." },
        ?_, List.mem_map.2 ⟨r, hmem, rfl⟩⟩
      simp only [_build_roadmap]
      simp [hne]

/-- An example recommendation used by claim witnesses. -/
def exampleRecommendation (i : String) (h : RecommendationHorizon) : Recommendation :=
  { id := i
    dimension_code := .STR
    linked_finding_ids := []
    theme := "Example"
    priority_rank := 1
    impact_score := 70
    effort_score := 50
    horizon := h
    action_steps := ["Step 1"]
    expected_outcomes := "Outcomes" }

/-- C8 witness: a concrete recommendation is covered by a roadmap phase. -/
theorem C8_witness :
    ∃ ph ∈ (_build_roadmap [exampleRecommendation "rec-001" .NINETY_DAYS]).phases,
      (exampleRecommendation "rec-001" .NINETY_DAYS).id ∈ ph.linked_recommendation_ids :=
  (C8_roadmap_structure [exampleRecommendation "rec-001" .NINETY_DAYS]).2.2.2.2
    (exampleRecommendation "rec-001" .NINETY_DAYS) (List.mem_singleton.2 rfl)

/-! ## Claim C7 -/

theorem mem_id_map_of_take_filter {findings : List Finding} {p : Finding → Bool}
    {n : ℕ} {fid : String}
    (h : fid ∈ ((findings.filter p).map (fun f => f.id)).take n) :
    fid ∈ findings.map (fun f => f.id) := by
  have h1 := List.take_subset n _ h
  rcases List.mem_map.1 h1 with ⟨f, hf, rfl⟩
  exact List.mem_map.2 ⟨f, (List.mem_filter.1 hf).1, rfl⟩

theorem linked_sub_of_mem_richRecs {findings : List Finding}
    {cats : List P15Category} {rank : ℕ} {r : Recommendation}
    (hr : r ∈ richRecs rank findings cats) :
    ∀ fid ∈ r.linked_finding_ids, fid ∈ findings.map (fun f => f.id) := by
  induction cats generalizing rank with
  | nil => cases hr
  | cons cat rest ih =>
    unfold richRecs at hr
    rcases List.mem_append.1 hr with hmem | hmem
    · rcases List.mem_map.1 hmem with ⟨pq, _, rfl⟩
      intro fid hfid
      exact mem_id_map_of_take_filter hfid
    · exact ih hmem

theorem linked_sub_of_mem_fallbackRecs {findings : List Finding}
    {dims : List Dimension} {rank : ℕ} {r : Recommendation}
    (hr : r ∈ fallbackRecs rank findings dims) :
    ∀ fid ∈ r.linked_finding_ids, fid ∈ findings.map (fun f => f.id) := by
  induction dims generalizing rank with
  | nil => cases hr
  | cons dim rest ih =>
    unfold fallbackRecs at hr
    split_ifs at hr
    · exact ih hr
    · exact ih hr
    · rcases List.mem_cons.1 hr with rfl | hmem
      · intro fid hfid
        rcases List.mem_map.1 hfid with ⟨f, hf, rfl⟩
        exact List.mem_map.2 ⟨f, (List.mem_filter.1 hf).1, rfl⟩
      · exact ih hmem

theorem linked_sub_of_mem_build_recommendations {p15 : Phase15}
    {dims : List Dimension} {findings : List Finding} {r : Recommendation}
    (hr : r ∈ _build_recommendations p15 dims findings) :
    ∀ fid ∈ r.linked_finding_ids, fid ∈ findings.map (fun f => f.id) := by
  obtain ⟨ca, os⟩ := p15
  cases ca with
  | none => exact linked_sub_of_mem_fallbackRecs hr
  | some cats =>
    cases os with
    | none =>
      have hr' : r ∈ richRecs 1 findings cats ++ ([] : List Recommendation) := hr
      rw [List.append_nil] at hr'
      exact linked_sub_of_mem_richRecs hr'
    | some s =>
      have hr' : r ∈ richRecs 1 findings cats
          ++ (if s.topOpportunities.isEmpty then []
              else (s.topOpportunities.take 5).enum.map
                (fun p => opportunityRec
                  (1 + (cats.map (fun c => c.quickWins.length)).sum + p.1) p.2)) := hr
      rcases List.mem_append.1 hr' with hmem | hmem
      · exact linked_sub_of_mem_richRecs hmem
      · split_ifs at hmem
        · cases hmem
        · rcases List.mem_map.1 hmem with ⟨pq, _, rfl⟩
          intro fid hfid
          cases hfid

theorem mem_ids_of_mem_quickWinBackfill {recs items : List Recommendation}
    {acc : List QuickWin} {q : QuickWin}
    (hacc : ∀ x ∈ acc, x.recommendation_id ∈ recs.map (fun r => r.id))
    (hitems : ∀ x ∈ items, x ∈ recs)
    (hq : q ∈ quickWinBackfill acc items) :
    q.recommendation_id ∈ recs.map (fun r => r.id) := by
  induction items generalizing acc with
  | nil => exact hacc q hq
  | cons r rest ih =>
    unfold quickWinBackfill at hq
    split_ifs at hq
    · exact ih hacc (fun x hx => hitems x (List.mem_cons_of_mem _ hx)) hq
    · rcases List.mem_append.1 hq with h | h
      · exact hacc q h
      · rw [List.mem_singleton] at h
        subst h
        exact List.mem_map.2 ⟨r, hitems r (List.mem_cons_self _ _), rfl⟩
    · refine ih ?_ (fun x hx => hitems x (List.mem_cons_of_mem _ hx)) hq
      intro x hx
      rcases List.mem_append.1 hx with h | h
      · exact hacc x h
      · rw [List.mem_singleton] at h
        subst h
        exact List.mem_map.2 ⟨r, hitems r (List.mem_cons_self _ _), rfl⟩
    · exact ih hacc (fun x hx => hitems x (List.mem_cons_of_mem _ hx)) hq

theorem mem_ids_of_mem_quickWinRatioFill {recs items : List Recommendation}
    {acc : List QuickWin} {q : QuickWin}
    (hacc : ∀ x ∈ acc, x.recommendation_id ∈ recs.map (fun r => r.id))
    (hitems : ∀ x ∈ items, x ∈ recs)
    (hq : q ∈ quickWinRatioFill acc items) :
    q.recommendation_id ∈ recs.map (fun r => r.id) := by
  induction items generalizing acc with
  | nil => exact hacc q hq
  | cons r rest ih =>
    unfold quickWinRatioFill at hq
    split_ifs at hq
    · exact hacc q hq
    · exact ih hacc (fun x hx => hitems x (List.mem_cons_of_mem _ hx)) hq
    · rcases List.mem_append.1 hq with h | h
      · exact hacc q h
      · rw [List.mem_singleton] at h
        subst h
        exact List.mem_map.2 ⟨r, hitems r (List.mem_cons_self _ _), rfl⟩
    · refine ih ?_ (fun x hx => hitems x (List.mem_cons_of_mem _ hx)) hq
      intro x hx
      rcases List.mem_append.1 hx with h | h
      · exact hacc x h
      · rw [List.mem_singleton] at h
        subst h
        exact List.mem_map.2 ⟨r, hitems r (List.mem_cons_self _ _), rfl⟩

theorem qw_id_of_mem_build_quick_wins {p15 : Phase15}
    {recs : List Recommendation} {q : QuickWin}
    (hq : q ∈ _build_quick_wins p15 recs) :
    q.recommendation_id ∈ recs.map (fun r => r.id) := by
  obtain ⟨ca, os⟩ := p15
  cases ca with
  | some cats =>
    have hq' : q ∈
        (if (((recs.filter (fun r => decide (r.effort_score ≤ 40)
            && decide (60 ≤ r.impact_score))).take 10).map
            (fun r => ({ recommendation_id := r.id } : QuickWin))).length < 5
         then quickWinBackfill (((recs.filter (fun r => decide (r.effort_score ≤ 40)
            && decide (60 ≤ r.impact_score))).take 10).map
            (fun r => ({ recommendation_id := r.id } : QuickWin))) recs
         else ((recs.filter (fun r => decide (r.effort_score ≤ 40)
            && decide (60 ≤ r.impact_score))).take 10).map
            (fun r => ({ recommendation_id := r.id } : QuickWin))) := hq
    have hbase : ∀ x ∈ ((recs.filter (fun r => decide (r.effort_score ≤ 40)
        && decide (60 ≤ r.impact_score))).take 10).map
        (fun r => ({ recommendation_id := r.id } : QuickWin)),
        x.recommendation_id ∈ recs.map (fun r => r.id) := by
      intro x hx
      rcases List.mem_map.1 hx with ⟨r, hr, rfl⟩
      exact List.mem_map.2 ⟨r, (List.mem_filter.1 (List.take_subset _ _ hr)).1, rfl⟩
    split_ifs at hq'
    · exact mem_ids_of_mem_quickWinBackfill hbase (fun x hx => hx) hq'
    · exact hbase q hq'
  | none =>
    have hq' : q ∈
        (if ((recs.filter (fun r => decide (60 ≤ r.impact_score)
            && decide (r.effort_score < 50)
            && decide (r.horizon = RecommendationHorizon.NINETY_DAYS))).map
            (fun r => ({ recommendation_id := r.id } : QuickWin))).length < 3
         then quickWinRatioFill ((recs.filter (fun r => decide (60 ≤ r.impact_score)
            && decide (r.effort_score < 50)
            && decide (r.horizon = RecommendationHorizon.NINETY_DAYS))).map
            (fun r => ({ recommendation_id := r.id } : QuickWin)))
            ((pySorted (fun a b => decide (quickWinRatio b ≤ quickWinRatio a)) recs).take 5)
         else (recs.filter (fun r => decide (60 ≤ r.impact_score)
            && decide (r.effort_score < 50)
            && decide (r.horizon = RecommendationHorizon.NINETY_DAYS))).map
            (fun r => ({ recommendation_id := r.id } : QuickWin))) := hq
    have hbase : ∀ x ∈ (recs.filter (fun r => decide (60 ≤ r.impact_score)
        && decide (r.effort_score < 50)
        && decide (r.horizon = RecommendationHorizon.NINETY_DAYS))).map
        (fun r => ({ recommendation_id := r.id } : QuickWin)),
        x.recommendation_id ∈ recs.map (fun r => r.id) := by
      intro x hx
      rcases List.mem_map.1 hx with ⟨r, hr, rfl⟩
      exact List.mem_map.2 ⟨r, (List.mem_filter.1 hr).1, rfl⟩
    split_ifs at hq'
    · refine mem_ids_of_mem_quickWinRatioFill hbase ?_ hq'
      intro x hx
      exact mem_pySorted.1 (List.take_subset _ _ hx)
    · exact hbase q hq'

/-- C7: in every IDM produced by `compile_idm` (rich or fallback mode), every
id in any recommendation's `linked_finding_ids` refers to a finding present
in the same document, and every quick win's `recommendation_id` refers to a
recommendation present in the same document. -/
theorem C7_referential_integrity (pc : Option String) (p15 : Phase15)
    (w : Webhook) (fresh : FreshValues) :
    (∀ r ∈ (compile_idm pc p15 w fresh).recommendations,
      ∀ fid ∈ r.linked_finding_ids,
        fid ∈ (compile_idm pc p15 w fresh).findings.map (fun f => f.id))
    ∧ (∀ q ∈ (compile_idm pc p15 w fresh).quick_wins,
        q.recommendation_id
          ∈ (compile_idm pc p15 w fresh).recommendations.map (fun r => r.id)) := by
  constructor
  · intro r hr fid hfid
    have hr' : r ∈ _build_recommendations p15
        (_build_dimensions (_extract_category_scores p15 w))
        (_build_findings p15 (_build_dimensions (_extract_category_scores p15 w))) := hr
    exact linked_sub_of_mem_build_recommendations hr' fid hfid
  · intro q hq
    have hq' : q ∈ _build_quick_wins p15
        (_build_recommendations p15
          (_build_dimensions (_extract_category_scores p15 w))
          (_build_findings p15 (_build_dimensions (_extract_category_scores p15 w)))) := hq
    exact qw_id_of_mem_build_quick_wins hq'

/-- The webhook used by the C7 witness: a single low response drives the
Strategy score to 0, producing a risk finding, a linked recommendation and a
quick win. -/
def c7webhook : Webhook := [("strategy", [("q1", JValue.num 1)])]

/-- The concrete compiled IDM used by the C7 witness. -/
def c7idm : IDM :=
  compile_idm none ⟨none, none⟩ c7webhook ⟨"run-1", "2025-01-01T00:00:00Z", "company-1"⟩

/-- C7 witness: in the concrete IDM, the first recommendation's linked
finding id and the first quick win's recommendation id both resolve. -/
theorem C7_witness :
    ("finding-risk-STR" ∈ c7idm.findings.map (fun f => f.id))
    ∧ ("rec-STR-1" ∈ c7idm.recommendations.map (fun r => r.id)) := by
  have h := C7_referential_integrity none ⟨none, none⟩ c7webhook
    ⟨"run-1", "2025-01-01T00:00:00Z", "company-1"⟩
  constructor
  · refine h.1 (c7idm.recommendations.headD (exampleRecommendation "dummy" .NINETY_DAYS))
      ?_ "finding-risk-STR" ?_
    · with_unfolding_all decide
    · with_unfolding_all decide
  · have heq : (c7idm.quick_wins.headD { recommendation_id := "dummy" }).recommendation_id
        = "rec-STR-1" := by
      with_unfolding_all decide
    have h2 := h.2 (c7idm.quick_wins.headD { recommendation_id := "dummy" })
      (by with_unfolding_all decide)
    exact heq ▸ h2

end BizHealth
